import Mathlib

/-!
Verification development for the GeneticRace repository.

The repository consists of two Python scripts,
`src/main/resources/python/FirstStage.py` (operational treatment stage) and
`src/main/resources/python/SecondStage.py` (conservative treatment stage).
Both share one genetic-algorithm skeleton and differ only in their frozen
equation banks, parameter ranges and input lengths.

This file gives a shallow embedding of both scripts:

* Python floats are modelled by exact real numbers `ℝ`;
* Python's built-in banker's rounding `round` is modelled by `GA.pyRound`,
  and `round(x, 15)` by `GA.round15`;
* the randomness of `random.randint` and `random.choices` is modelled by
  explicit tapes of drawn values supplied as extra arguments; the library
  contracts (`randint(a, b)` lies in `[a, b]`, `choices(range(32), ...)`
  returns indices below 32, `get_mothers` returns an index distinct from the
  father) appear as hypotheses on those tapes where a proof needs them;
* in-place list updates are modelled by `List.set` folds.

Shared functions that are textually identical in the two scripts
(`saati_method`, `calculate_saati`, `get_discrepancies`, `get_probabilities`,
`crossover`, `mutation`, and the `calculate_treatment` driver skeleton) are
embedded once in the `GA` namespace; stage specific functions live in the
`FirstStage` and `SecondStage` namespaces.
-/

noncomputable section

open scoped Classical

namespace GA

/-- `POPULATION_NUMBER = 32` (both scripts, line 24). -/
def POPULATION_NUMBER : ℕ := 32

/-- `GA_RUNS = 20` (both scripts, line 26). -/
def GA_RUNS : ℕ := 20

/-- `SOLUTION_SIZE = 9` (both scripts, line 27). -/
def SOLUTION_SIZE : ℕ := 9

/-- `MAX_GENERATIONS = 500` (both scripts, line 28). -/
def MAX_GENERATIONS : ℕ := 500

/-- Python's built-in `round` to an integer: round half to even (banker's
rounding).  Off ties it agrees with rounding to the nearest integer; on a tie
(`fract x = 1/2`) it picks the even neighbour `⌊x⌋ + ⌊x⌋ % 2`. -/
def pyRound (x : ℝ) : ℤ :=
  if Int.fract x = 1 / 2 then ⌊x⌋ + ⌊x⌋ % 2 else round x

/-- Python's `round(x, 15)`: round to 15 decimal places. -/
def round15 (x : ℝ) : ℝ := (pyRound (x * 10 ^ 15) : ℝ) / 10 ^ 15

/-- scipy's `gmean`: geometric mean of a list, `(∏ l) ^ (1 / length l)`. -/
def gmean (l : List ℝ) : ℝ := l.prod ^ ((l.length : ℝ))⁻¹

/-- `first_row = [1.0, 2.0, ..., 9.0]` from `saati_method` (both scripts). -/
def first_row : List ℝ := [1.0, 2.0, 3.0, 4.0, 5.0, 6.0, 7.0, 8.0, 9.0]

/-- the comparison matrix built by `saati_method`: `first_row` followed by
`first_row / i` for `i in range(2, 10)`. -/
def relationship_matrix : List (List ℝ) :=
  first_row :: (List.range' 2 8).map (fun i => first_row.map (fun v => v / (i : ℝ)))

/-- `saati_method()` (both scripts): geometric row means of the comparison
matrix, normalised to sum 1. -/
def saati_method : List ℝ :=
  let gmean_list := relationship_matrix.map gmean
  gmean_list.map (fun g => g / gmean_list.sum)

/-- `calculate_saati` (both scripts): fitness of every criterion vector
against the weight vector, rounded to 15 decimal places. -/
def calculate_saati (coeff_list : List ℝ) (criterion_list : List (List ℤ)) : List ℝ :=
  criterion_list.map (fun c_list =>
    round15 ((List.zipWith (fun (c : ℤ) (coeff : ℝ) => -(c : ℝ) * coeff) c_list coeff_list).sum))

/-- `get_discrepancies` (both scripts). -/
def get_discrepancies (perfect_value : ℝ) (saati_list : List ℝ) : List ℝ :=
  saati_list.map (fun s => perfect_value - s)

/-- `get_probabilities` (both scripts): reciprocal discrepancies, normalised. -/
def get_probabilities (disc_list : List ℝ) : List ℝ :=
  let inv_list := disc_list.map (fun d => 1 / d)
  inv_list.map (fun i => i / inv_list.sum)

/-- `crossover` (both scripts): for every slot `i` the first `(i % 8) + 1`
coordinates come from one parent and the rest from the other, the parent
roles swapping at `i % 16 == 8`; every coordinate is written in place into
`sol_list` but read from the snapshot `temp_sol_list`. -/
def crossover (sol_list temp_sol_list : List (List ℝ))
    (father_list mother_list : List ℕ) : List (List ℝ) :=
  (List.range POPULATION_NUMBER).foldl (fun sl i =>
    let j := father_list.getD i 0
    let k := mother_list.getD i 0
    (List.range SOLUTION_SIZE).foldl (fun sl' l =>
      sl'.set i ((sl'.getD i []).set l
        (if l < i % 8 + 1 then
          (temp_sol_list.getD (if i % 16 < 8 then j else k) []).getD l 0
        else
          (temp_sol_list.getD (if i % 16 < 8 then k else j) []).getD l 0))) sl)
    sol_list

/-- `mutation` (both scripts): replace every slot except index 0 by a fresh
random solution; `fresh i` stands for the stage's `_random_solution()` call
made when the loop reaches index `i`. -/
def mutation (fresh : ℕ → List ℝ) (sol_list : List (List ℝ)) : List (List ℝ) :=
  (List.range' 1 (POPULATION_NUMBER - 1)).foldl (fun sl i => sl.set i (fresh i)) sol_list

/-- the coordinate of the snapshot that `crossover` writes into coordinate
`l` of slot `i`. -/
def crossover_source (temp_sol_list : List (List ℝ))
    (father_list mother_list : List ℕ) (i l : ℕ) : ℝ :=
  if l < i % 8 + 1 then
    (temp_sol_list.getD
      (if i % 16 < 8 then father_list.getD i 0 else mother_list.getD i 0) []).getD l 0
  else
    (temp_sol_list.getD
      (if i % 16 < 8 then mother_list.getD i 0 else father_list.getD i 0) []).getD l 0

end GA

namespace FirstStage

/-- Treatment parameter ranges for operational treatment
(`FirstStage.py` lines 31-39); the first two are scaled by `/100` after
sampling. -/
def X201_RANGE : ℤ × ℤ := (1, 10000)

/-- `X202_RANGE = (1, 25000)`. -/
def X202_RANGE : ℤ × ℤ := (1, 25000)

/-- `X203_RANGE = (5, 60)`. -/
def X203_RANGE : ℤ × ℤ := (5, 60)

/-- `X204_RANGE = (1, 5)`. -/
def X204_RANGE : ℤ × ℤ := (1, 5)

/-- `X205_RANGE = (1, 2)`. -/
def X205_RANGE : ℤ × ℤ := (1, 2)

/-- `X206_RANGE = (1, 2)`. -/
def X206_RANGE : ℤ × ℤ := (1, 2)

/-- `X207_RANGE = (1, 2)`. -/
def X207_RANGE : ℤ × ℤ := (1, 2)

/-- `X208_RANGE = (1, 2)`. -/
def X208_RANGE : ℤ × ℤ := (1, 2)

/-- `X209_RANGE = (1, 2)`. -/
def X209_RANGE : ℤ × ℤ := (1, 2)

/-- `calculate_criterions(x_list, sol_list)` (`FirstStage.py` lines 70-102):
evaluate the nine GMDH classification equations on each candidate and map a
value rounding to 0 to class 1, anything else to class 2.  The tuple
unpacking of the twelve condition features is modelled positionally by
`getD`. -/
def calculate_criterions (x_list : List ℝ) (sol_list : List (List ℝ)) :
    List (List ℤ) :=
  let x101 := x_list.getD 0 0
  let x102 := x_list.getD 1 0
  let x103 := x_list.getD 2 0
  let x104 := x_list.getD 3 0
  let x105 := x_list.getD 4 0
  let x106 := x_list.getD 5 0
  let x107 := x_list.getD 6 0
  let x108 := x_list.getD 7 0
  let x109 := x_list.getD 8 0
  let x110 := x_list.getD 9 0
  let x111 := x_list.getD 10 0
  let x112 := x_list.getD 11 0
  sol_list.map (fun u_list =>
    let x201 := u_list.getD 0 0
    let x202 := u_list.getD 1 0
    let x203 := u_list.getD 2 0
    let x204 := u_list.getD 3 0
    let x205 := u_list.getD 4 0
    let x206 := u_list.getD 5 0
    let x207 := u_list.getD 6 0
    let x208 := u_list.getD 7 0
    let x209 := u_list.getD 8 0
    let x301_eq_two : ℝ := -0.832705 + x111⁻¹*x201*0.00291197 + x106*x208*(-0.00135807) + x105*x109*(-0.00232767) + x101⁻¹*x112*17.0861 + x103⁻¹*x109⁻¹*10.4146 + x101*x202*0.000502042 + x205⁻¹*x207*0.358865 + x109⁻¹*x202*(-0.00771969) + x202*x204⁻¹*(-0.0530489) + x101⁻¹*x204⁻¹*35.5495
    let x302_eq_two : ℝ := 1.8959 + x103*x104*4.62265e-05 + x105*x205⁻¹*(-0.0705953) + x104⁻¹*x106*(-0.0233172) + x201⁻¹*x207⁻¹*(-41.7888) + x107⁻¹*x108*0.0905328 + x103⁻¹*x207⁻¹*(-121.413) + x111*x209⁻¹*(-0.585375) + x105⁻¹*x109*0.620899 + x106⁻¹*x109⁻¹*(-2.62234) + x107*x204⁻¹*0.12513
    let x303_eq_two : ℝ := -0.0102022 + x201⁻¹*x203⁻¹*716.757 + x106*x209*0.00518668 + x103⁻¹*x106*(-0.994431) + x103*x112*(-0.000324448) + x105⁻¹*x108*(-1.12948) + x110⁻¹*x209*0.247751 + x103⁻¹*x109⁻¹*(-2.46223) + x106*x107⁻¹*(-0.00429694) + x103⁻¹*x107⁻¹*73.8395 + x108*x204*0.0123085
    let x304_eq_two : ℝ := 1.44158 + x102*x202*(-0.00673552) + x105*x112*(-0.00959038) + x202*x207⁻¹*0.044888 + x206*x209⁻¹*0.518793 + x104*x112*(-0.0113419) + x101*x108*0.000239275 + x107*x201*(-0.00032867) + x105⁻¹*x202⁻¹*(-11.7529) + x103*x111⁻¹*0.0013597 + x103*x206⁻¹*(-0.000968004)
    let x305_eq_two : ℝ := -1.6615 + x104*x110*(-0.0346257) + x105⁻¹*x112*3.10562 + x103⁻¹*x208*(-21.4803) + x109⁻¹*x201*0.00047157 + x108*x202*0.00862588 + x110*x203⁻¹*10.1393 + x101⁻¹*x106*(-0.159258) + x109⁻¹*x112⁻¹*(-0.0942774) + x104*x203*0.00720075 + x110*x202⁻¹*0.557958
    let x306_eq_two : ℝ := -0.975001 + x108*x209*0.0475912 + x105⁻¹*x112*0.697149 + x111*x208*0.46606 + x112⁻¹*x201⁻¹*(-242.356) + x108*x112⁻¹*0.261032 + x201⁻¹*x209*58.4543 + x108*x208⁻¹*0.30269 + x108*x111*(-0.183598) + x106⁻¹*x112⁻¹*12.3259 + x106⁻¹*x111⁻¹*(-13.7248)
    let x307_eq_two : ℝ := -4.40144 + x102⁻¹*x110⁻¹*(-3.4971) + x112*x202*(-0.0306613) + x103⁻¹*x204*(-43.0255) + x111*x205*0.155946 + x110*x208*0.0941545 + x203*x206⁻¹*0.386844 + x203⁻¹*x206*12.2186 + x101*x204*0.00132263 + x101⁻¹*x103⁻¹*6595.83 + x202*x208*0.0178928
    let x308_eq_two : ℝ := 0.756968 + x103⁻¹*x205⁻¹*(-645.415) + x101⁻¹*x109*7.78827 + x103*x206*(-0.000590993) + x109*x204*(-0.0105553) + x101*x103⁻¹*(-0.507904) + x103⁻¹*x203*21.8255 + x203⁻¹*x205⁻¹*19.0435 + x109*x205*(-0.0813564) + x104⁻¹*x109*1.49701 + x101*x208*0.000912961
    let x309_eq_two : ℝ := 1.28185 + x102*x206*0.0191846 + x204*x207*0.0272657 + x101*x207⁻¹*(-0.00709976) + x101⁻¹*x204⁻¹*(-60.0672) + x104⁻¹*x106*(-0.0216769) + x108*x205*0.07052 + x105*x108*(-0.00645342) + x108*x204*(-0.023769) + x108*x207⁻¹*0.123772 + x104*x105⁻¹*(-0.24784)
    [if GA.pyRound x301_eq_two = 0 then 1 else 2,
     if GA.pyRound x302_eq_two = 0 then 1 else 2,
     if GA.pyRound x303_eq_two = 0 then 1 else 2,
     if GA.pyRound x304_eq_two = 0 then 1 else 2,
     if GA.pyRound x305_eq_two = 0 then 1 else 2,
     if GA.pyRound x306_eq_two = 0 then 1 else 2,
     if GA.pyRound x307_eq_two = 0 then 1 else 2,
     if GA.pyRound x308_eq_two = 0 then 1 else 2,
     if GA.pyRound x309_eq_two = 0 then 1 else 2])

/-- the ideal criterion list built inside `calculate_perfect_value`
(`FirstStage.py` lines 105-126): criteria 1 and 2 are always class 1, the
remaining seven come from reduced equations over the condition alone. -/
def perfect_c_list (x_list : List ℝ) : List ℤ :=
  let x101 := x_list.getD 0 0
  let x102 := x_list.getD 1 0
  let x103 := x_list.getD 2 0
  let x104 := x_list.getD 3 0
  let x105 := x_list.getD 4 0
  let x106 := x_list.getD 5 0
  let x107 := x_list.getD 6 0
  let x108 := x_list.getD 7 0
  let x109 := x_list.getD 8 0
  let x110 := x_list.getD 9 0
  let x111 := x_list.getD 10 0
  let x112 := x_list.getD 11 0
    let x303_eq_two : ℝ := 0.369661 + x106*x111*0.00310719 + x106*x108*(-0.000751507) + x103*x106*(-1.03015e-05) + x103*x108*4.53861e-05 + x111*(-0.357763) + x106*x112*0.00105434 + x102*x112*(-0.00670676) + x102*x108*0.00417287 + x103*0.000583292 + x102*x106*(-8.76937e-05)
    let x304_eq_two : ℝ := 0.175478 + x110*x112*(-0.154013) + x101*x111*0.0055126 + x103*x107*0.000703851 + x107*x109*(-0.0270747) + x103*x108*(-0.00028867) + x102*x110*0.0515488 + x107*x112*(-0.413692) + x108*x112*0.0185017 + x108*x109*0.00789789 + x101*x110*(-0.00487274) + x102*x111*(-0.0490524) + x101*x108*(-0.000395743) + x101*x107*0.000153086 + x107*0.920759 + x105*x107*(-0.0243143) + x105*x112*0.0514067 + x105*(-0.0825905) + x105*x108*0.00620842
    let x305_eq_two : ℝ := -0.227066 + x105*x111*(-0.0734265) + x107*x108*(-0.028469) + x103*x107*0.000299704 + x101*x104*0.000299719 + x104*x108*(-0.0224514) + x111*x112*0.358285 + x104*x106*0.000163868 + x103*x106*(-9.55294e-06) + x103*x108*0.0002392 + x105*x106*(-0.000231602) + x108*0.512628 + x108*x112*(-0.0751962) + x105*x110*0.0754866 + x101*x107*(-0.001482) + x102*x108*(-0.0126606) + x106*x108*0.000532562 + x102*x104*0.00464377 + x102*x110*(-0.0334515) + x105*x108*0.00934543 + x105*x112*(-0.0342288) + x101*x102*0.000261614 + x101*x110*(-0.00219381) + x107*x112*0.109794
    let x306_eq_two : ℝ := -0.0114987 + x108*x109*(-0.00578912) + x104⁻¹*x109⁻¹*1.1257 + x109⁻¹*x112⁻¹*(-0.0419663) + x106*x111⁻¹*(-0.00358674) + x106*x109*(-0.000515749) + x109*x110*0.0632775 + x109*x111*(-0.0298963) + x108*x109⁻¹*0.0109361 + x109⁻¹*x112*(-0.0432296) + x102*x109*0.00138459 + x103⁻¹*x109⁻¹*(-5.55096) + x106⁻¹*x108*0.88429 + x110*x111⁻¹*0.261843 + x106*x108*0.000715337 + x108*x110*(-0.0391553) + x103⁻¹*x108*2.59644 + x106*x107⁻¹*0.000557014 + x107*x110⁻¹*0.341142 + x105*x110⁻¹*(-0.00959482) + x107*x111⁻¹*(-0.0715939) + x106⁻¹*x109*(-0.78666) + x103⁻¹*x106⁻¹*(-656.336) + x106*x110⁻¹*(-0.00633399) + x104⁻¹*x106*0.0286779 + x104⁻¹*x107*(-0.886387) + x107*x109*0.0132561 + x105*x109*(-0.00200309) + x107*x110*(-0.0264503)
    let x307_eq_two : ℝ := 2.6937 + x101*x110*0.00637564 + x101*x109*(-0.00117356) + x109^2*(-0.00267333) + x105*x111*0.00413604 + x103*x112*(-0.00073236) + x109*0.204242 + x103*x106*1.62601e-05 + x106^2*(-1.08259e-05) + x102*x112*0.153545 + x101*x102*(-0.000396763) + x109*x112*(-0.104191) + x103*0.00284761 + x102*x103*(-0.000144981) + x106*x107*0.00251191 + x103*x110*(-0.000936957) + x101*x105*(-0.000577864) + x104*x105*0.00385265 + x112^2*(-0.83391) + x102*(-0.307295) + x102^2*0.00483699 + x107*(-0.112072) + x104*x110*(-0.0459923) + x101*x104*0.000413922 + x110*x112*0.216481 + x104*x109*0.0068067 + x102*x108*(-0.00353053) + x106*(-0.00962964) + x105*x106*0.000303744 + x107^2*(-0.0391921)
    let x308_eq_two : ℝ := -1.14363 + x102*x109*0.00138057 + x103*x106*1.10351e-05 + x105*x111*0.122882 + x106*x108*(-0.0012283) + x108*x109*(-0.0121911) + x110^2*0.44975 + x101*x107*0.00167406 + x106*x111*0.00572702 + x103*0.00782358 + x103^2*(-5.48141e-06) + x103*x107*(-0.000982276) + x101^2*(-2.41892e-05) + x103*x108*0.000759317 + x101*x110*0.00210718 + x105*x108*(-0.01283) + x107*x108*0.0327821 + x103*x105*(-0.00028816) + x110*x111*(-0.862231) + x108^2*0.00717402 + x103*x109*0.000164123 + x108*x111*(-0.134656) + x109*x112*(-0.0522137) + x109*0.141487 + x104*x108*0.0154947 + x104*x105*(-0.00406125) + x106*(-0.0119813) + x101*x106*1.94922e-05 + x106*x109*(-0.00031123) + x101*x105*(-0.000104463)
    let x309_eq_two : ℝ := 1.67402 + x103⁻¹*x111*64.7561 + x108*x109*(-0.00257077) + x103*x109⁻¹*0.000177662 + x101⁻¹*x102⁻¹*(-892.92) + x108*x109⁻¹*(-0.0215984) + x105*x109*0.00529672 + x107*x109*(-0.0818487) + x106⁻¹*x107⁻¹*8.77323 + x103⁻¹*x106*(-1.63549) + x101*x103*(-1.69885e-05) + x105⁻¹*x110⁻¹*(-4.57522) + x106⁻¹*x108*2.06638 + x104*x109⁻¹*0.00764918 + x107⁻¹*x112⁻¹*(-1.33627) + x107⁻¹*x111⁻¹*0.163089 + x109*x112⁻¹*(-0.250843) + x102⁻¹*x109*2.04587 + x110*x111⁻¹*0.144078 + x102*x112⁻¹*0.0875985 + x102⁻¹*x112*4.40152 + x101*x105*(-0.000362291) + x102⁻¹*x106⁻¹*(-267.832) + x101*x106*3.30086e-05 + x102*x110*(-0.0331608) + x107⁻¹*x110*0.687005 + x104*x105⁻¹*(-0.523747) + x104⁻¹*x107⁻¹*(-8.04198) + x101*x107*0.000894778 + x101⁻¹*x107⁻¹*26.1572
  [1, 1,
     if GA.pyRound x303_eq_two = 0 then 1 else 2,
     if GA.pyRound x304_eq_two = 0 then 1 else 2,
     if GA.pyRound x305_eq_two = 0 then 1 else 2,
     if GA.pyRound x306_eq_two = 0 then 1 else 2,
     if GA.pyRound x307_eq_two = 0 then 1 else 2,
     if GA.pyRound x308_eq_two = 0 then 1 else 2,
     if GA.pyRound x309_eq_two = 0 then 1 else 2]

/-- `calculate_perfect_value(x_list, coeff_list)` (`FirstStage.py`
lines 105-129). -/
def calculate_perfect_value (x_list : List ℝ) (coeff_list : List ℝ) : ℝ :=
  GA.round15 ((List.zipWith (fun (c : ℤ) (coeff : ℝ) => -(c : ℝ) * coeff)
    (perfect_c_list x_list) coeff_list).sum)

/-- `_random_solution()` (`FirstStage.py` lines 145-157) applied to the nine
`randint` draws `r`; the first two draws are scaled by `/100`. -/
def _random_solution (r : List ℤ) : List ℝ :=
  [(r.getD 0 0 : ℝ) / 100, (r.getD 1 0 : ℝ) / 100, (r.getD 2 0 : ℝ),
   (r.getD 3 0 : ℝ), (r.getD 4 0 : ℝ), (r.getD 5 0 : ℝ), (r.getD 6 0 : ℝ),
   (r.getD 7 0 : ℝ), (r.getD 8 0 : ℝ)]

/-- contract of Python's `randint`: the drawn value lies inside the closed
range. -/
def randint_ok (p : ℤ × ℤ) (v : ℤ) : Prop := p.1 ≤ v ∧ v ≤ p.2

/-- the nine draws feeding one `_random_solution()` call respect the
declared ranges. -/
def draws_ok (r : List ℤ) : Prop :=
  r.length = 9 ∧ randint_ok X201_RANGE (r.getD 0 0) ∧
    randint_ok X202_RANGE (r.getD 1 0) ∧ randint_ok X203_RANGE (r.getD 2 0) ∧
    randint_ok X204_RANGE (r.getD 3 0) ∧ randint_ok X205_RANGE (r.getD 4 0) ∧
    randint_ok X206_RANGE (r.getD 5 0) ∧ randint_ok X207_RANGE (r.getD 6 0) ∧
    randint_ok X208_RANGE (r.getD 7 0) ∧ randint_ok X209_RANGE (r.getD 8 0)

/-- declared per-coordinate value ranges of an operational treatment vector,
after the `/100` scaling of the first two coordinates. -/
def bounds : List (ℝ × ℝ) :=
  [(1 / 100, 100), (1 / 100, 250), (5, 60), (1, 5), (1, 2), (1, 2), (1, 2),
   (1, 2), (1, 2)]

/-- a treatment vector has 9 coordinates, each within its declared range. -/
def solInRange (u : List ℝ) : Prop :=
  u.length = GA.SOLUTION_SIZE ∧
    ∀ l < GA.SOLUTION_SIZE,
      (bounds.getD l (0, 0)).1 ≤ u.getD l 0 ∧ u.getD l 0 ≤ (bounds.getD l (0, 0)).2

/-- `generate_first_population()` (`FirstStage.py` lines 160-162) given the
32 draw lists of its `_random_solution()` calls. -/
def generate_first_population (draws : List (List ℤ)) : List (List ℝ) :=
  (List.range GA.POPULATION_NUMBER).map (fun i => _random_solution (draws.getD i []))

end FirstStage

namespace SecondStage

/-- Treatment parameter ranges for medication treatment
(`SecondStage.py` lines 31-39); the first and third are scaled by `/100`
after sampling. -/
def X401_RANGE : ℤ × ℤ := (1, 4200)

/-- `X402_RANGE = (1, 81)`. -/
def X402_RANGE : ℤ × ℤ := (1, 81)

/-- `X403_RANGE = (0, 100)`. -/
def X403_RANGE : ℤ × ℤ := (0, 100)

/-- `X404_RANGE = (1, 25)`. -/
def X404_RANGE : ℤ × ℤ := (1, 25)

/-- `X405_RANGE = (1, 7)`. -/
def X405_RANGE : ℤ × ℤ := (1, 7)

/-- `X406_RANGE = (1, 4)`. -/
def X406_RANGE : ℤ × ℤ := (1, 4)

/-- `X407_RANGE = (1, 3)`. -/
def X407_RANGE : ℤ × ℤ := (1, 3)

/-- `X408_RANGE = (1, 2)`. -/
def X408_RANGE : ℤ × ℤ := (1, 2)

/-- `X409_RANGE = (1, 2)`. -/
def X409_RANGE : ℤ × ℤ := (1, 2)

/-- `calculate_criterions(x_list, sol_list)` (`SecondStage.py` lines 70-102)
for the late postoperative period; structure as in the first stage. -/
def calculate_criterions (x_list : List ℝ) (sol_list : List (List ℝ)) :
    List (List ℤ) :=
  let x301 := x_list.getD 0 0
  let x302 := x_list.getD 1 0
  let x303 := x_list.getD 2 0
  let x304 := x_list.getD 3 0
  let x305 := x_list.getD 4 0
  let x306 := x_list.getD 5 0
  let x307 := x_list.getD 6 0
  let x308 := x_list.getD 7 0
  let x309 := x_list.getD 8 0
  sol_list.map (fun u_list =>
    let x401 := u_list.getD 0 0
    let x402 := u_list.getD 1 0
    let x403 := u_list.getD 2 0
    let x404 := u_list.getD 3 0
    let x405 := u_list.getD 4 0
    let x406 := u_list.getD 5 0
    let x407 := u_list.getD 6 0
    let x408 := u_list.getD 7 0
    let x409 := u_list.getD 8 0
    let x501_eq_two : ℝ := 0.203898 + x301⁻¹*x405⁻¹*0.910959 + x404⁻¹*x405*0.427516 + x403*x406⁻¹*(-3.25314) + x301*x403*4.30283 + x404*x405⁻¹*(-0.0507695) + x303*x403*(-1.25164) + x304⁻¹*x405⁻¹*(-1.13018) + x401*x409⁻¹*0.013292 + x308*x309⁻¹*(-0.382442) + x306⁻¹*x404⁻¹*(-2.07729) + x401⁻¹*x409*1.05208 + x402⁻¹*x407⁻¹*(-19.254) + x404*x409*(-0.0224005) + x305⁻¹*x401⁻¹*(-10.406) + x305⁻¹*x404*0.101907 + x401⁻¹*x405⁻¹*3.49662 + x302⁻¹*x405⁻¹*1.15775 + x302*x303*0.17399 + x401⁻¹*x404⁻¹*(-7.90677) + x301*x407*(-0.122005) + x308*x402⁻¹*5.83819 + x301⁻¹*x404*(-0.0369662) + x401⁻¹*x407⁻¹*2.73641
    let x502_eq_two : ℝ := -0.471431 + x305⁻¹*x406⁻¹*1.09482 + x403*x408*(-3.06197) + x304*x403*2.72805 + x302⁻¹*x401⁻¹*2.92486 + x304⁻¹*x307⁻¹*1.72336 + x402⁻¹*x408⁻¹*(-5.41859) + x402*x404⁻¹*(-0.0445508) + x405*x407⁻¹*(-0.298849) + x308⁻¹*x405⁻¹*(-1.36086) + x301*x407⁻¹*1.09577 + x301*x405⁻¹*(-0.783258) + x402⁻¹*x404*(-0.493502) + x401*x404⁻¹*0.0744676 + x405⁻¹*x406*0.265279 + x406⁻¹*x407*0.501585 + x303⁻¹*x409*(-0.36206) + x405⁻¹*x407⁻¹*0.802625 + x304⁻¹*x406⁻¹*(-1.03788)
    let x503_eq_two : ℝ := 1.95339 + x408⁻¹*x409⁻¹*0.32464 + x308⁻¹*x404⁻¹*2.31705 + x407*x408*(-0.276162) + x407⁻¹*x408⁻¹*(-2.4394) + x304*x406*(-0.111947) + x404*x407⁻¹*0.0305552 + x405⁻¹*x408⁻¹*1.27569 + x401*x405⁻¹*(-0.0607239) + x401⁻¹*x409*(-1.0994) + x303⁻¹*x401*0.0271928
    let x504_eq_two : ℝ := 1.06655 + x403*x409⁻¹*3.59357 + x406⁻¹*x407⁻¹*(-1.19368) + x404*x405*(-0.00880017) + x308⁻¹*x407⁻¹*2.06499 + x401*x403*(-0.150814) + x402*x407⁻¹*0.011523 + x301⁻¹*x407*0.6211 + x401*x405⁻¹*0.0241819 + x401*x404⁻¹*(-0.0143991) + x301*x405*0.136269 + x405*x407*(-0.00884287) + x407*x408*(-0.211492) + x404*x407*0.00221758 + x303⁻¹*x307⁻¹*(-1.33289) + x301⁻¹*x308⁻¹*(-1.01545) + x405*x408⁻¹*(-0.206286) + x305⁻¹*x309*(-0.303684) + x402⁻¹*x409*(-1.84102) + x301*x401⁻¹*0.514069
    let x505_eq_two : ℝ := 0.091119 + x308⁻¹*x406⁻¹*1.15482 + x304*x309*(-0.234552) + x303*x305⁻¹*(-0.468262) + x401*x402*(-0.00120581) + x407⁻¹*x408⁻¹*2.20372 + x407*x408*0.203365 + x301⁻¹*x408⁻¹*(-0.224786) + x403*x407⁻¹*1.75401 + x402*x404⁻¹*0.0515831 + x401*x408⁻¹*0.0186275 + x306⁻¹*x403*(-3.10445) + x404*x408*0.0266439 + x302*x407*(-0.143367) + x302⁻¹*x407⁻¹*(-0.655295) + x403*x409⁻¹*3.61478 + x403*x408⁻¹*(-4.82115) + x401⁻¹*x404*(-0.222182) + x401⁻¹*x405⁻¹*1.68566 + x403*x404*0.154106 + x404⁻¹*x406*1.94052 + x401*x407*0.0123596 + x404⁻¹*x407⁻¹*(-1.7251) + x304⁻¹*x406*(-0.303317) + x306*x404⁻¹*(-0.768984) + x303⁻¹*x402⁻¹*6.71103
    let x506_eq_two : ℝ := 1.22334 + x403*x406*0.64041 + x402⁻¹*x404*1.92831 + x305*x307*0.186573 + x403*x404*(-0.204982) + x401⁻¹*x408⁻¹*(-12.1129) + x304⁻¹*x401⁻¹*7.87555 + x309⁻¹*x408*(-2.69499) + x302*x304⁻¹*0.874263 + x401⁻¹*x402*0.113644 + x303⁻¹*x402⁻¹*58.3697 + x303⁻¹*x401⁻¹*(-8.91198) + x309*x402⁻¹*(-57.1008) + x301⁻¹*x402⁻¹*12.9686 + x402⁻¹*x409*11.804 + x408*x409⁻¹*1.0522 + x308⁻¹*x404*(-0.0536574) + x305⁻¹*x403*2.98424 + x302*x409⁻¹*(-1.11811) + x304*x402⁻¹*25.7593 + x405⁻¹*x407*0.086348 + x401⁻¹*x409⁻¹*5.31789 + x401*x409*(-0.00743753)
    let x507_eq_two : ℝ := 2.70189 + x301^2*0.387945 + x305*x308*(-0.0851309) + x306*x307*(-0.232534) + x302*x409*0.0657112 + x303*x408*0.208682 + x403*x407*(-2.58931) + x403*x405*2.53922 + x402*x403*(-0.205441) + x301*x408*(-0.624969) + x401*x404*(-0.00361108) + x301*x401*0.014996 + x402*x404*0.000855651 + x302*x401*(-0.0180873) + x403*x409*3.3802 + x302*x403*(-4.60527) + x304*x403*8.3029 + x303*x304*(-0.192993) + x407*x408*0.22353 + x407*x409*(-0.159675) + x302*x309*(-0.118495) + x301*x403*(-7.86307) + x406*x407*(-0.0519393) + x403^2*(-10.6638) + x403*x408*3.47469 + x403*x406*(-1.3094) + x401^2*0.000791461
    let x508_eq_two : ℝ := 0.491547 + x302*x408*0.293381 + x402*x407*(-0.00138491) + x403*x404*(-0.10257) + x405*x406*0.102928 + x301*x304*0.150368 + x401*x408*(-0.0278252) + x404*x405*(-0.00818883) + x404*x409*0.0115062 + x308*x406*(-0.45356) + x304*x406*0.439602 + x304*x306*(-0.153749) + x305*x401*0.040654 + x401*x407*(-0.0169291) + x401*x402*(-0.000416154) + x304*x305*(-0.142557)
    let x509_eq_two : ℝ := 2.24957 + x307*x308*(-0.184216) + x401⁻¹*x404*0.149113 + x302*x404*(-0.0107084) + x402⁻¹*x407⁻¹*(-8.19724) + x403*x405⁻¹*(-6.10407) + x403*x409*3.4668 + x408⁻¹*x409*(-0.35094) + x301*x401*0.0394856 + x306*x401*(-0.0306855) + x302*x303⁻¹*(-0.230414) + x405*x407*(-0.0215096) + x301*x408*(-0.109036) + x306⁻¹*x403*(-2.45236) + x304⁻¹*x306⁻¹*0.715238
    [if GA.pyRound x501_eq_two = 0 then 1 else 2,
     if GA.pyRound x502_eq_two = 0 then 1 else 2,
     if GA.pyRound x503_eq_two = 0 then 1 else 2,
     if GA.pyRound x504_eq_two = 0 then 1 else 2,
     if GA.pyRound x505_eq_two = 0 then 1 else 2,
     if GA.pyRound x506_eq_two = 0 then 1 else 2,
     if GA.pyRound x507_eq_two = 0 then 1 else 2,
     if GA.pyRound x508_eq_two = 0 then 1 else 2,
     if GA.pyRound x509_eq_two = 0 then 1 else 2])

/-- the ideal criterion list built inside `calculate_perfect_value`
(`SecondStage.py` lines 105-111).  Note that the ninth entry is the raw
rounded value `x509`, not a class in 1 or 2. -/
def perfect_c_list (x_list : List ℝ) : List ℤ :=
  let x301 := x_list.getD 0 0
  let x302 := x_list.getD 1 0
  let x307 := x_list.getD 6 0
  let x509 : ℤ := GA.pyRound (1.70408 + x302 * x307 * (-0.238892) + x301^2 * 0.170947)
  [1, 1, 1, 1, 1, 1, 1, 1, x509]

/-- `calculate_perfect_value(x_list, coeff_list)` (`SecondStage.py`
lines 105-113). -/
def calculate_perfect_value (x_list : List ℝ) (coeff_list : List ℝ) : ℝ :=
  GA.round15 ((List.zipWith (fun (c : ℤ) (coeff : ℝ) => -(c : ℝ) * coeff)
    (perfect_c_list x_list) coeff_list).sum)

/-- `_random_solution()` (`SecondStage.py` lines 129-141) applied to the nine
`randint` draws `r`; draws one and three are scaled by `/100`. -/
def _random_solution (r : List ℤ) : List ℝ :=
  [(r.getD 0 0 : ℝ) / 100, (r.getD 1 0 : ℝ), (r.getD 2 0 : ℝ) / 100,
   (r.getD 3 0 : ℝ), (r.getD 4 0 : ℝ), (r.getD 5 0 : ℝ), (r.getD 6 0 : ℝ),
   (r.getD 7 0 : ℝ), (r.getD 8 0 : ℝ)]

/-- contract of Python's `randint`: the drawn value lies inside the closed
range. -/
def randint_ok (p : ℤ × ℤ) (v : ℤ) : Prop := p.1 ≤ v ∧ v ≤ p.2

/-- the nine draws feeding one `_random_solution()` call respect the
declared ranges. -/
def draws_ok (r : List ℤ) : Prop :=
  r.length = 9 ∧ randint_ok X401_RANGE (r.getD 0 0) ∧
    randint_ok X402_RANGE (r.getD 1 0) ∧ randint_ok X403_RANGE (r.getD 2 0) ∧
    randint_ok X404_RANGE (r.getD 3 0) ∧ randint_ok X405_RANGE (r.getD 4 0) ∧
    randint_ok X406_RANGE (r.getD 5 0) ∧ randint_ok X407_RANGE (r.getD 6 0) ∧
    randint_ok X408_RANGE (r.getD 7 0) ∧ randint_ok X409_RANGE (r.getD 8 0)

/-- declared per-coordinate value ranges of a medication treatment vector,
after the `/100` scaling of coordinates one and three. -/
def bounds : List (ℝ × ℝ) :=
  [(1 / 100, 42), (1, 81), (0, 1), (1, 25), (1, 7), (1, 4), (1, 3), (1, 2),
   (1, 2)]

/-- a treatment vector has 9 coordinates, each within its declared range. -/
def solInRange (u : List ℝ) : Prop :=
  u.length = GA.SOLUTION_SIZE ∧
    ∀ l < GA.SOLUTION_SIZE,
      (bounds.getD l (0, 0)).1 ≤ u.getD l 0 ∧ u.getD l 0 ≤ (bounds.getD l (0, 0)).2

/-- `generate_first_population()` (`SecondStage.py` lines 144-146) given the
32 draw lists of its `_random_solution()` calls. -/
def generate_first_population (draws : List (List ℤ)) : List (List ℝ) :=
  (List.range GA.POPULATION_NUMBER).map (fun i => _random_solution (draws.getD i []))

end SecondStage

namespace GA

/-- one generation's worth of randomness: the father draw of
`choices(POPULATION_RANGE, prob_list, k=POPULATION_NUMBER)`, the mother
draws of `get_mothers(father_list, prob_list)` (both as functions of the
data they are sampled from), and the `randint` draw lists consumed by the
`_random_solution()` calls of `mutation`. -/
structure GenTape where
  fathers : List ℝ → List ℕ
  mothers : List ℕ → List ℝ → List ℕ
  mutDraws : ℕ → List ℤ

/-- result of one iteration of the generation loop of
`calculate_treatment`; the `mutated` and `crossed` payloads carry the new
population, the grown mean list and the criterion and saati lists of the
evaluation performed this generation. -/
inductive StepResult where
  | converged (treatment : List ℝ) (criterion : List ℤ)
  | dominated (treatment : List ℝ) (criterion : List ℤ)
  | mutated (sol_list : List (List ℝ)) (mean_list : List ℝ)
      (criterion_list : List (List ℤ)) (saati_list : List ℝ)
  | crossed (sol_list : List (List ℝ)) (mean_list : List ℝ)
      (criterion_list : List (List ℤ)) (saati_list : List ℝ)

/-- outcome of one run of the generation loop: the three ways the loop can
deliver a treatment together with its recorded criterion vector. -/
inductive Outcome where
  | converged (treatment : List ℝ) (criterion : List ℤ)
  | dominated (treatment : List ℝ) (criterion : List ℤ)
  | exhausted (treatment : List ℝ) (criterion : List ℤ)

/-- the treatment vector a run appends to `treatment_list`. -/
def Outcome.treatment : Outcome → List ℝ
  | .converged t _ => t
  | .dominated t _ => t
  | .exhausted t _ => t

/-- the criterion vector a run appends to `complication_list`. -/
def Outcome.criterion : Outcome → List ℤ
  | .converged _ c => c
  | .dominated _ c => c
  | .exhausted _ c => c

/-- `best_idx = min(range(POPULATION_NUMBER), key=lambda i: disc_list[i])`:
Python's `min` keeps the first index attaining the minimum. -/
def argmin_idx (disc_list : List ℝ) : ℕ :=
  (List.range POPULATION_NUMBER).foldl
    (fun best i => if disc_list.getD i 0 < disc_list.getD best 0 then i else best) 0

/-- body of the generation loop of `calculate_treatment` (both scripts,
`FirstStage.py` lines 229-259): evaluate the population, scan for an exact
optimum, otherwise record the mean discrepancy and either mutate
(stagnation), stop (domination) or cross over.  `evalCrit` is the stage's
`calculate_criterions` applied to the fixed condition vector and `randSol`
its `_random_solution`. -/
def generation_step (evalCrit : List (List ℝ) → List (List ℤ))
    (randSol : List ℤ → List ℝ) (coeff_list : List ℝ) (perfect_value : ℝ)
    (tape : GenTape) (sol_list : List (List ℝ)) (mean_list : List ℝ) :
    StepResult :=
  let criterion_list := evalCrit sol_list
  let saati_list := calculate_saati coeff_list criterion_list
  match (List.range POPULATION_NUMBER).find?
      (fun i => decide (saati_list.getD i 0 = perfect_value)) with
  | some i => .converged (sol_list.getD i []) (criterion_list.getD i [])
  | none =>
    let disc_list := get_discrepancies perfect_value saati_list
    let mean_disc := disc_list.sum / (disc_list.length : ℝ)
    let mean_list' := mean_list ++ [mean_disc]
    if 2 < mean_list'.length ∧
        mean_list'.getD (mean_list'.length - 2) 0 =
          mean_list'.getD (mean_list'.length - 1) 0 then
      .mutated (mutation (fun i => randSol (tape.mutDraws i)) sol_list) mean_list'
        criterion_list saati_list
    else
      let prob_list := get_probabilities disc_list
      let father_list := tape.fathers prob_list
      if father_list.dedup.length ≤ 1 then
        .dominated (sol_list.getD (father_list.getD 0 0) [])
          (criterion_list.getD (father_list.getD 0 0) [])
      else
        let mother_list := tape.mothers father_list prob_list
        .crossed (crossover sol_list sol_list father_list mother_list)
          mean_list' criterion_list saati_list

/-- the generation loop of `calculate_treatment` with `fuel` iterations
left; `prev` carries the criterion and saati lists of the most recent
evaluation, which the `for`/`else` exhaustion branch of the Python loop
reads after the final in-place population update has already replaced
`sol_list`. -/
def run_loop (evalCrit : List (List ℝ) → List (List ℤ))
    (randSol : List ℤ → List ℝ) (coeff_list : List ℝ) (perfect_value : ℝ)
    (tape : ℕ → GenTape) :
    ℕ → ℕ → List (List ℝ) → List ℝ → List (List ℤ) × List ℝ → Outcome
  | 0, _, sol_list, _, prev =>
    let disc_list := get_discrepancies perfect_value prev.2
    let best_idx := argmin_idx disc_list
    .exhausted (sol_list.getD best_idx []) (prev.1.getD best_idx [])
  | fuel + 1, gen, sol_list, mean_list, _prev =>
    match generation_step evalCrit randSol coeff_list perfect_value (tape gen)
        sol_list mean_list with
    | .converged t c => .converged t c
    | .dominated t c => .dominated t c
    | .mutated s m cr sa =>
      run_loop evalCrit randSol coeff_list perfect_value tape fuel (gen + 1) s m (cr, sa)
    | .crossed s m cr sa =>
      run_loop evalCrit randSol coeff_list perfect_value tape fuel (gen + 1) s m (cr, sa)

/-- the JSON result object of `calculate_treatment`: up to five treatments
and one criterion vector. -/
structure TreatmentResult where
  treatments : List (List ℝ)
  complications : List ℤ

/-- the observable behaviour of one `main()` invocation: the process exit
code, the result printed on success, the error object printed on failure. -/
structure MainResult where
  exitCode : ℕ
  result : Option TreatmentResult
  error : Option String

end GA

namespace FirstStage

/-- `calculate_treatment(x_list)` (`FirstStage.py` lines 215-274): twenty
independent runs of the bounded generation loop, each starting from a fresh
random population (`init_draws r`) and consuming the random tape `tapes r`;
the result keeps the first five treatments and the criterion vector of the
first run only. -/
def calculate_treatment (x_list : List ℝ) (init_draws : ℕ → List (List ℤ))
    (tapes : ℕ → ℕ → GA.GenTape) : GA.TreatmentResult :=
  let coeff_list := GA.saati_method
  let perfect_value := calculate_perfect_value x_list coeff_list
  let outcomes := (List.range GA.GA_RUNS).map (fun r =>
    GA.run_loop (calculate_criterions x_list) _random_solution coeff_list
      perfect_value (tapes r) GA.MAX_GENERATIONS 0
      (generate_first_population (init_draws r)) [] ([], []))
  let treatment_list := outcomes.map GA.Outcome.treatment
  let complication_list := outcomes.map GA.Outcome.criterion
  ⟨treatment_list.take 5,
    match complication_list with
    | [] => []
    | c :: _ => c⟩

/-- `main()` (`FirstStage.py` lines 277-294) after command-line and JSON
decoding by the boundary collaborator: a wrong `xList` length raises
`ValueError`, which is caught, printed as an error object and turned into
exit status 1 without the search ever starting; otherwise the search runs
and its result is printed with exit status 0. -/
def main (x_list : List ℝ) (init_draws : ℕ → List (List ℤ))
    (tapes : ℕ → ℕ → GA.GenTape) : GA.MainResult :=
  if x_list.length ≠ 12 then
    ⟨1, none, some ("Expected 12 input values, got " ++ toString x_list.length)⟩
  else
    ⟨0, some (calculate_treatment x_list init_draws tapes), none⟩

end FirstStage

namespace SecondStage

/-- `calculate_treatment(x_list)` (`SecondStage.py` lines 199-258), as in
the first stage. -/
def calculate_treatment (x_list : List ℝ) (init_draws : ℕ → List (List ℤ))
    (tapes : ℕ → ℕ → GA.GenTape) : GA.TreatmentResult :=
  let coeff_list := GA.saati_method
  let perfect_value := calculate_perfect_value x_list coeff_list
  let outcomes := (List.range GA.GA_RUNS).map (fun r =>
    GA.run_loop (calculate_criterions x_list) _random_solution coeff_list
      perfect_value (tapes r) GA.MAX_GENERATIONS 0
      (generate_first_population (init_draws r)) [] ([], []))
  let treatment_list := outcomes.map GA.Outcome.treatment
  let complication_list := outcomes.map GA.Outcome.criterion
  ⟨treatment_list.take 5,
    match complication_list with
    | [] => []
    | c :: _ => c⟩

/-- `main()` (`SecondStage.py` lines 261-278), as in the first stage but
expecting nine input values. -/
def main (x_list : List ℝ) (init_draws : ℕ → List (List ℤ))
    (tapes : ℕ → ℕ → GA.GenTape) : GA.MainResult :=
  if x_list.length ≠ 9 then
    ⟨1, none, some ("Expected 9 input values, got " ++ toString x_list.length)⟩
  else
    ⟨0, some (calculate_treatment x_list init_draws tapes), none⟩

/-- the all-zero conservative condition vector, a concrete input on which
the ideal ninth criterion rounds to class 2. -/
def x_zero : List ℝ := [0, 0, 0, 0, 0, 0, 0, 0, 0]

/-- a concrete conservative condition vector whose perfect value is
unattainable: the ideal ninth criterion rounds to `-22`, pushing the
perfect value above every fitness a criterion vector of classes in
1 or 2 can reach. -/
def x_cex : List ℝ := [1, 10, 1, 1, 1, 1, 10, 1, 1]

/-- the perfect value of `x_cex`. -/
def cex_pv : ℝ := calculate_perfect_value x_cex GA.saati_method

/-- a single treatment row of all ones; it equals
`_random_solution [100, 1, 100, 1, 1, 1, 1, 1, 1]`, so a population of such
rows is reachable by `generate_first_population`. -/
def cex_row : List ℝ := List.replicate GA.SOLUTION_SIZE 1

/-- a population of 32 identical rows. -/
def cex_sol : List (List ℝ) := List.replicate GA.POPULATION_NUMBER cex_row

/-- a father draw with two distinct indices, so no domination occurs. -/
def cex_fathers : List ℕ := (List.range GA.POPULATION_NUMBER).map (fun i => i % 2)

/-- a mother draw avoiding the corresponding fathers. -/
def cex_mothers : List ℕ :=
  (List.range GA.POPULATION_NUMBER).map (fun i => i % 2 + 2)

/-- the random tape of the concrete scenario: constant father and mother
draws and `randint` draws regenerating the all-ones row. -/
def cex_tape : GA.GenTape :=
  ⟨fun _ => cex_fathers, fun _ _ => cex_mothers, fun _ => [100, 1, 100, 1, 1, 1, 1, 1, 1]⟩

/-- the criterion lists of the scenario population. -/
def cex_crit : List (List ℤ) := calculate_criterions x_cex cex_sol

/-- the saati values of the scenario population. -/
def cex_saati : List ℝ := GA.calculate_saati GA.saati_method cex_crit

/-- the mean discrepancy the generation loop records on the scenario
population. -/
def cex_mean : ℝ :=
  (GA.get_discrepancies cex_pv cex_saati).sum /
    ((GA.get_discrepancies cex_pv cex_saati).length : ℝ)

end SecondStage

namespace FirstStage

/-- populations produced by `generate_first_population` and evolved by any
sequence of `crossover` and `mutation` operations whose random draws respect
the library contracts (`randint` in range, parent indices below 32). -/
inductive Reachable : List (List ℝ) → Prop where
  | init (draws : List (List ℤ)) (hd : draws.length = GA.POPULATION_NUMBER)
      (hok : ∀ r ∈ draws, draws_ok r) :
      Reachable (generate_first_population draws)
  | cross (pop : List (List ℝ)) (father_list mother_list : List ℕ)
      (hp : Reachable pop)
      (hf : ∀ i, i < GA.POPULATION_NUMBER →
        father_list.getD i 0 < GA.POPULATION_NUMBER)
      (hm : ∀ i, i < GA.POPULATION_NUMBER →
        mother_list.getD i 0 < GA.POPULATION_NUMBER) :
      Reachable (GA.crossover pop pop father_list mother_list)
  | mutate (pop : List (List ℝ)) (draws : ℕ → List ℤ)
      (hp : Reachable pop) (hok : ∀ i, draws_ok (draws i)) :
      Reachable (GA.mutation (fun i => _random_solution (draws i)) pop)

end FirstStage

namespace SecondStage

/-- populations produced by `generate_first_population` and evolved by any
sequence of `crossover` and `mutation` operations whose random draws respect
the library contracts (`randint` in range, parent indices below 32). -/
inductive Reachable : List (List ℝ) → Prop where
  | init (draws : List (List ℤ)) (hd : draws.length = GA.POPULATION_NUMBER)
      (hok : ∀ r ∈ draws, draws_ok r) :
      Reachable (generate_first_population draws)
  | cross (pop : List (List ℝ)) (father_list mother_list : List ℕ)
      (hp : Reachable pop)
      (hf : ∀ i, i < GA.POPULATION_NUMBER →
        father_list.getD i 0 < GA.POPULATION_NUMBER)
      (hm : ∀ i, i < GA.POPULATION_NUMBER →
        mother_list.getD i 0 < GA.POPULATION_NUMBER) :
      Reachable (GA.crossover pop pop father_list mother_list)
  | mutate (pop : List (List ℝ)) (draws : ℕ → List ℤ)
      (hp : Reachable pop) (hok : ∀ i, draws_ok (draws i)) :
      Reachable (GA.mutation (fun i => _random_solution (draws i)) pop)

end SecondStage

namespace GA

lemma pyRound_le (x : ℝ) : (pyRound x : ℝ) ≤ x + 1 / 2 := by
  unfold pyRound
  split
  · rename_i h
    have hx : x = ⌊x⌋ + 1 / 2 := by
      have := Int.floor_add_fract x
      rw [h] at this
      linarith
    have hm : (0 : ℤ) ≤ ⌊x⌋ % 2 ∧ ⌊x⌋ % 2 ≤ 1 := by omega
    push_cast
    have : ((⌊x⌋ % 2 : ℤ) : ℝ) ≤ 1 := by exact_mod_cast hm.2
    linarith [hx]
  · have := abs_sub_round x
    rw [abs_sub_le_iff] at this
    linarith [this.1, this.2]

lemma le_pyRound (x : ℝ) : x - 1 / 2 ≤ (pyRound x : ℝ) := by
  unfold pyRound
  split
  · rename_i h
    have hx : x = ⌊x⌋ + 1 / 2 := by
      have := Int.floor_add_fract x
      rw [h] at this
      linarith
    have hm : (0 : ℤ) ≤ ⌊x⌋ % 2 := by omega
    push_cast
    have : (0 : ℝ) ≤ ((⌊x⌋ % 2 : ℤ) : ℝ) := by exact_mod_cast hm
    linarith [hx]
  · have := abs_sub_round x
    rw [abs_sub_le_iff] at this
    linarith [this.1, this.2]

lemma pyRound_mono {x y : ℝ} (h : x ≤ y) : pyRound x ≤ pyRound y := by
  by_contra hlt
  push_neg at hlt
  have h4 : pyRound x = pyRound y + 1 := by
    have hx := pyRound_le x
    have hy := le_pyRound y
    have : (pyRound x : ℝ) ≤ (pyRound y : ℝ) + 1 := by linarith
    have h3 : pyRound x ≤ pyRound y + 1 := by exact_mod_cast this
    omega
  have h5 : (pyRound x : ℝ) = (pyRound y : ℝ) + 1 := by exact_mod_cast h4
  have hx := pyRound_le x
  have hy := le_pyRound y
  have hxy : x = y := le_antisymm h (by linarith)
  rw [hxy] at h4
  omega

lemma pyRound_intCast (n : ℤ) : pyRound (n : ℝ) = n := by
  unfold pyRound
  rw [Int.fract_intCast]
  norm_num

lemma round15_mono {x y : ℝ} (h : x ≤ y) : round15 x ≤ round15 y := by
  unfold round15
  have h10 : (0 : ℝ) < 10 ^ 15 := by norm_num
  rw [div_le_div_iff_of_pos_right h10]
  have : x * 10 ^ 15 ≤ y * 10 ^ 15 := by nlinarith
  exact_mod_cast pyRound_mono this

lemma round15_le (x : ℝ) : round15 x ≤ x + 1 / (2 * 10 ^ 15) := by
  unfold round15
  have h := pyRound_le (x * 10 ^ 15)
  rw [div_le_iff₀ (by norm_num : (0:ℝ) < 10 ^ 15)]
  linarith

lemma le_round15 (x : ℝ) : x - 1 / (2 * 10 ^ 15) ≤ round15 x := by
  unfold round15
  have h := le_pyRound (x * 10 ^ 15)
  rw [le_div_iff₀ (by norm_num : (0:ℝ) < 10 ^ 15)]
  linarith

lemma round15_intCast (n : ℤ) : round15 (n : ℝ) = n := by
  unfold round15
  have : (n : ℝ) * 10 ^ 15 = ((n * 10 ^ 15 : ℤ) : ℝ) := by push_cast; ring
  rw [this, pyRound_intCast]
  push_cast
  rw [mul_div_assoc]
  norm_num

lemma round15_neg_one : round15 (-1) = -1 := by
  have := round15_intCast (-1)
  push_cast at this
  exact this

lemma rpow_nine_inv_pow (x : ℝ) (hx : 0 ≤ x) :
    (x ^ (9 : ℕ)) ^ ((9 : ℝ))⁻¹ = x := by
  rw [← Real.rpow_natCast x 9, ← Real.rpow_mul hx]
  norm_num

lemma gmean_first_row : gmean first_row = (362880 : ℝ) ^ ((9 : ℝ))⁻¹ := by
  unfold gmean first_row
  norm_num

lemma gmean_map_div (c : ℝ) (hc : 0 < c) :
    gmean (first_row.map (fun v => v / c)) = (362880 : ℝ) ^ ((9 : ℝ))⁻¹ / c := by
  unfold gmean
  have h1 : (first_row.map (fun v => v / c)).prod = 362880 / c ^ (9 : ℕ) := by
    simp only [first_row, List.map_cons, List.map_nil, List.prod_cons, List.prod_nil]
    field_simp
    ring
  have h2 : (first_row.map (fun v => v / c)).length = 9 := by simp [first_row]
  rw [h1, h2]
  have h9 : (((9 : ℕ)) : ℝ)⁻¹ = ((9 : ℝ))⁻¹ := by norm_num
  rw [h9, Real.div_rpow (by norm_num) (by positivity), rpow_nine_inv_pow c hc.le]

/-- closed form of `saati_method`: in exact real arithmetic the geometric
means `G / i` cancel and the weights are `(1/i) / (Σ 1/j)`. -/
lemma saati_method_eq : saati_method =
    [2520 / 7129, 1260 / 7129, 840 / 7129, 630 / 7129, 504 / 7129,
     420 / 7129, 360 / 7129, 315 / 7129, 280 / 7129] := by
  have hG : (0 : ℝ) < (362880 : ℝ) ^ ((9 : ℝ))⁻¹ :=
    Real.rpow_pos_of_pos (by norm_num) _
  have hrange : List.range' 2 8 = [2, 3, 4, 5, 6, 7, 8, 9] := by decide
  have hrows : relationship_matrix.map gmean =
      [(362880 : ℝ) ^ ((9 : ℝ))⁻¹, (362880 : ℝ) ^ ((9 : ℝ))⁻¹ / 2,
       (362880 : ℝ) ^ ((9 : ℝ))⁻¹ / 3, (362880 : ℝ) ^ ((9 : ℝ))⁻¹ / 4,
       (362880 : ℝ) ^ ((9 : ℝ))⁻¹ / 5, (362880 : ℝ) ^ ((9 : ℝ))⁻¹ / 6,
       (362880 : ℝ) ^ ((9 : ℝ))⁻¹ / 7, (362880 : ℝ) ^ ((9 : ℝ))⁻¹ / 8,
       (362880 : ℝ) ^ ((9 : ℝ))⁻¹ / 9] := by
    rw [relationship_matrix, hrange]
    simp only [List.map_cons, List.map_nil, gmean_first_row]
    norm_num [gmean_map_div 2 (by norm_num), gmean_map_div 3 (by norm_num),
      gmean_map_div 4 (by norm_num), gmean_map_div 5 (by norm_num),
      gmean_map_div 6 (by norm_num), gmean_map_div 7 (by norm_num),
      gmean_map_div 8 (by norm_num), gmean_map_div 9 (by norm_num)]
  rw [saati_method, hrows]
  have hsum : ([(362880 : ℝ) ^ ((9 : ℝ))⁻¹, (362880 : ℝ) ^ ((9 : ℝ))⁻¹ / 2,
       (362880 : ℝ) ^ ((9 : ℝ))⁻¹ / 3, (362880 : ℝ) ^ ((9 : ℝ))⁻¹ / 4,
       (362880 : ℝ) ^ ((9 : ℝ))⁻¹ / 5, (362880 : ℝ) ^ ((9 : ℝ))⁻¹ / 6,
       (362880 : ℝ) ^ ((9 : ℝ))⁻¹ / 7, (362880 : ℝ) ^ ((9 : ℝ))⁻¹ / 8,
       (362880 : ℝ) ^ ((9 : ℝ))⁻¹ / 9] : List ℝ).sum =
      (362880 : ℝ) ^ ((9 : ℝ))⁻¹ * (7129 / 2520) := by
    simp only [List.sum_cons, List.sum_nil]
    ring
  rw [hsum]
  simp only [List.map_cons, List.map_nil, List.cons.injEq, and_true]
  refine ⟨?_, ?_, ?_, ?_, ?_, ?_, ?_, ?_, ?_⟩ <;>
    · rw [div_eq_div_iff (ne_of_gt (by positivity)) (by norm_num : (7129 : ℝ) ≠ 0)]
      ring

lemma zip_sum_le {c : List ℤ} {w : List ℝ} (hc : ∀ e ∈ c, 1 ≤ e)
    (hw : ∀ v ∈ w, 0 ≤ v) :
    (List.zipWith (fun (c : ℤ) (coeff : ℝ) => -(c : ℝ) * coeff) c w).sum ≤
      -((w.take c.length).sum) := by
  induction c generalizing w with
  | nil => simp
  | cons a c ih =>
    cases w with
    | nil => norm_num
    | cons v w =>
      simp only [List.zipWith_cons_cons, List.sum_cons, List.length_cons,
        List.take_succ_cons]
      have ha : (1 : ℝ) ≤ (a : ℝ) := by
        exact_mod_cast hc a (List.mem_cons_self a c)
      have hv : 0 ≤ v := hw v (List.mem_cons_self v w)
      have h1 : -(a : ℝ) * v ≤ -v := by nlinarith
      have h2 := ih (fun e he => hc e (List.mem_cons_of_mem a he))
        (fun u hu => hw u (List.mem_cons_of_mem v hu))
      linarith

lemma getD_set_ne {β : Type} (sl : List β) {i j : ℕ} (x d : β) (h : i ≠ j) :
    (sl.set i x).getD j d = sl.getD j d := by
  simp [List.getD_eq_getElem?_getD, List.getElem?_set_ne h]

lemma getD_set_self_of_lt {β : Type} (sl : List β) {i : ℕ} (x d : β)
    (h : i < sl.length) :
    (sl.set i x).getD i d = x := by
  simp [List.getD_eq_getElem?_getD, List.getElem?_set_self h]

lemma set_getD_self {β : Type} (sl : List β) (i : ℕ) (d : β) :
    sl.set i (sl.getD i d) = sl := by
  by_cases h : i < sl.length
  · apply List.ext_getElem?
    intro n
    by_cases hn : i = n
    · subst hn
      rw [List.getElem?_set_self h]
      simp [List.getD_eq_getElem?_getD, List.getElem?_eq_getElem h]
    · rw [List.getElem?_set_ne hn]
  · exact List.set_eq_of_length_le (le_of_not_lt h)

/-- effect of an in-place update loop `for i in L: sl[i] = g i sl[i]` on
lengths. -/
lemma foldl_set_length {β : Type} (L : List ℕ) (f : List β → ℕ → List β)
    (g : ℕ → β → β) (d : β) (hf : ∀ s i, f s i = s.set i (g i (s.getD i d))) :
    ∀ sl : List β, (L.foldl f sl).length = sl.length := by
  induction L with
  | nil => intro sl; rfl
  | cons a L ih =>
    intro sl
    rw [List.foldl_cons, ih, hf]
    exact List.length_set sl a _

/-- effect of an in-place update loop `for i in L: sl[i] = g i sl[i]` on
elements, for a duplicate-free index list. -/
lemma foldl_set_getD {β : Type} (L : List ℕ) (f : List β → ℕ → List β)
    (g : ℕ → β → β) (d : β) (hf : ∀ s i, f s i = s.set i (g i (s.getD i d))) :
    ∀ sl : List β, L.Nodup → ∀ j : ℕ,
      (L.foldl f sl).getD j d =
        if j ∈ L ∧ j < sl.length then g j (sl.getD j d) else sl.getD j d := by
  induction L with
  | nil =>
    intro sl _ j
    simp
  | cons a L ih =>
    intro sl hnd j
    rw [List.foldl_cons, hf, ih _ hnd.of_cons j, List.length_set]
    by_cases hjL : j ∈ L
    · have hja : a ≠ j := fun h => (hnd.not_mem (h ▸ hjL)).elim
      rw [getD_set_ne sl _ _ hja]
      by_cases hjl : j < sl.length
      · simp [hjL, hjl, List.mem_cons]
      · simp [hjL, hjl]
    · by_cases hja : j = a
      · subst hja
        by_cases hjl : j < sl.length
        · rw [getD_set_self_of_lt sl _ _ hjl]
          simp [hjL, hjl]
        · rw [List.set_eq_of_length_le (le_of_not_lt hjl)]
          simp [hjL, hjl]
      · rw [getD_set_ne sl _ _ (fun h => hja h.symm)]
        simp [hjL, hja]

/-- inner `for l in range(SOLUTION_SIZE)` loop of `crossover`: updating
coordinate `l` of row `i` in place is the same as replacing row `i` by the
updated row. -/
lemma foldl_setrow_eq {β : Type} (L : List ℕ) (i : ℕ) (w : ℕ → β) (d : List β) :
    ∀ sl : List (List β),
      L.foldl (fun sl' l => sl'.set i ((sl'.getD i d).set l (w l))) sl =
        sl.set i (L.foldl (fun r l => r.set l (w l)) (sl.getD i d)) := by
  induction L with
  | nil => intro sl; rw [List.foldl_nil, List.foldl_nil, set_getD_self]
  | cons a L ih =>
    intro sl
    rw [List.foldl_cons, List.foldl_cons, ih]
    by_cases h : i < sl.length
    · rw [getD_set_self_of_lt sl _ _ h, List.set_set]
    · rw [List.set_eq_of_length_le (le_of_not_lt h),
        List.set_eq_of_length_le (le_of_not_lt h),
        List.set_eq_of_length_le (le_of_not_lt h)]

lemma zip_sum_ones (n : ℕ) (w : List ℝ) :
    (List.zipWith (fun (c : ℤ) (coeff : ℝ) => -(c : ℝ) * coeff) (List.replicate n (1 : ℤ)) w).sum =
      -((w.take n).sum) := by
  induction n generalizing w with
  | zero => simp
  | succ n ih =>
    cases w with
    | nil => simp
    | cons v w =>
      simp only [List.replicate_succ, List.zipWith_cons_cons, List.sum_cons,
        List.take_succ_cons, ih]
      push_cast
      ring

lemma foldl_fun_congr {α β : Type} {f g : β → α → β} (h : ∀ b a, f b a = g b a) :
    ∀ (L : List α) (init : β), L.foldl f init = L.foldl g init := by
  intro L
  induction L with
  | nil => intro init; rfl
  | cons a L ih => intro init; rw [List.foldl_cons, List.foldl_cons, h, ih]

set_option maxHeartbeats 1600000 in
lemma crossover_eq_foldl (sol_list temp_sol_list : List (List ℝ))
    (father_list mother_list : List ℕ) :
    crossover sol_list temp_sol_list father_list mother_list =
      (List.range POPULATION_NUMBER).foldl (fun sl i =>
        sl.set i ((List.range SOLUTION_SIZE).foldl
          (fun r l => r.set l (crossover_source temp_sol_list father_list mother_list i l))
          (sl.getD i []))) sol_list := by
  unfold crossover
  exact foldl_fun_congr
    (fun sl i => foldl_setrow_eq (List.range SOLUTION_SIZE) i
      (fun l => crossover_source temp_sol_list father_list mother_list i l) [] sl)
    (List.range POPULATION_NUMBER) sol_list

lemma crossover_length (sol_list temp_sol_list : List (List ℝ))
    (father_list mother_list : List ℕ) :
    (crossover sol_list temp_sol_list father_list mother_list).length = sol_list.length := by
  rw [crossover_eq_foldl]
  have h := foldl_set_length (List.range POPULATION_NUMBER)
    (fun sl i =>
      sl.set i ((List.range SOLUTION_SIZE).foldl
        (fun r l => r.set l (crossover_source temp_sol_list father_list mother_list i l))
        (sl.getD i [])))
    (fun i row => (List.range SOLUTION_SIZE).foldl
      (fun r l => r.set l (crossover_source temp_sol_list father_list mother_list i l)) row)
    [] (fun s i => rfl) sol_list
  exact h

lemma crossover_getD (sol_list temp_sol_list : List (List ℝ))
    (father_list mother_list : List ℕ) {i : ℕ} (hi : i < POPULATION_NUMBER)
    (hil : i < sol_list.length) :
    (crossover sol_list temp_sol_list father_list mother_list).getD i [] =
      (List.range SOLUTION_SIZE).foldl
        (fun r l => r.set l (crossover_source temp_sol_list father_list mother_list i l))
        (sol_list.getD i []) := by
  rw [crossover_eq_foldl]
  have h := foldl_set_getD (List.range POPULATION_NUMBER)
    (fun sl i =>
      sl.set i ((List.range SOLUTION_SIZE).foldl
        (fun r l => r.set l (crossover_source temp_sol_list father_list mother_list i l))
        (sl.getD i [])))
    (fun i row => (List.range SOLUTION_SIZE).foldl
      (fun r l => r.set l (crossover_source temp_sol_list father_list mother_list i l)) row)
    [] (fun s i => rfl) sol_list (List.nodup_range _) i
  rw [if_pos ⟨List.mem_range.mpr hi, hil⟩] at h
  exact h

lemma crossover_row_length (sol_list temp_sol_list : List (List ℝ))
    (father_list mother_list : List ℕ) {i : ℕ} (hi : i < POPULATION_NUMBER)
    (hil : i < sol_list.length) :
    ((crossover sol_list temp_sol_list father_list mother_list).getD i []).length =
      (sol_list.getD i []).length := by
  rw [crossover_getD sol_list temp_sol_list father_list mother_list hi hil]
  have h := foldl_set_length (List.range SOLUTION_SIZE)
    (fun r l => r.set l (crossover_source temp_sol_list father_list mother_list i l))
    (fun l _ => crossover_source temp_sol_list father_list mother_list i l)
    0 (fun s i => rfl) (sol_list.getD i [])
  exact h

/-- coordinate-level description of `crossover`: every coordinate written
into slot `i` is read from the snapshot `temp_sol_list` only. -/
lemma crossover_coord (sol_list temp_sol_list : List (List ℝ))
    (father_list mother_list : List ℕ) {i l : ℕ} (hi : i < POPULATION_NUMBER)
    (hil : i < sol_list.length) (hrow : (sol_list.getD i []).length = SOLUTION_SIZE)
    (hl : l < SOLUTION_SIZE) :
    ((crossover sol_list temp_sol_list father_list mother_list).getD i []).getD l 0 =
      crossover_source temp_sol_list father_list mother_list i l := by
  rw [crossover_getD sol_list temp_sol_list father_list mother_list hi hil]
  have h := foldl_set_getD (List.range SOLUTION_SIZE)
    (fun r l => r.set l (crossover_source temp_sol_list father_list mother_list i l))
    (fun l _ => crossover_source temp_sol_list father_list mother_list i l)
    0 (fun s i => rfl) (sol_list.getD i []) (List.nodup_range _) l
  rw [if_pos ⟨List.mem_range.mpr hl, hrow ▸ hl⟩] at h
  exact h

lemma mutation_length (fresh : ℕ → List ℝ) (sol_list : List (List ℝ)) :
    (mutation fresh sol_list).length = sol_list.length := by
  unfold mutation
  have h := foldl_set_length (List.range' 1 (POPULATION_NUMBER - 1))
    (fun sl i => sl.set i (fresh i)) (fun i _ => fresh i)
    [] (fun s i => rfl) sol_list
  exact h

lemma mutation_getD (fresh : ℕ → List ℝ) (sol_list : List (List ℝ)) (j : ℕ) :
    (mutation fresh sol_list).getD j [] =
      if (1 ≤ j ∧ j < POPULATION_NUMBER) ∧ j < sol_list.length then fresh j
      else sol_list.getD j [] := by
  unfold mutation
  have h := foldl_set_getD (List.range' 1 (POPULATION_NUMBER - 1))
    (fun sl i => sl.set i (fresh i)) (fun i _ => fresh i)
    [] (fun s i => rfl) sol_list (List.nodup_range' 1 (POPULATION_NUMBER - 1)) j
  simp only [List.mem_range'_1] at h
  norm_num [POPULATION_NUMBER] at h ⊢
  exact h

/-- any value of the form `1 if round(e) == 0 else 2` is the class 1 or 2. -/
lemma ite_class_mem (P : Prop) [Decidable P] :
    (if P then (1 : ℤ) else 2) = 1 ∨ (if P then (1 : ℤ) else 2) = 2 := by
  split
  · exact Or.inl rfl
  · exact Or.inr rfl

lemma saati_method_nonneg : ∀ v ∈ saati_method, (0 : ℝ) ≤ v := by
  rw [saati_method_eq]
  intro v hv
  simp only [List.mem_cons, List.not_mem_nil, or_false] at hv
  rcases hv with rfl | rfl | rfl | rfl | rfl | rfl | rfl | rfl | rfl <;> norm_num

lemma saati_method_take_nine : (saati_method.take 9).sum = 1 := by
  rw [saati_method_eq]
  norm_num

/-- fitness of a criterion vector of nine classes that are at least 1 is at
most the all-ones fitness `-1`. -/
lemma score_le_neg_one {c : List ℤ} (hlen : c.length = 9) (hc : ∀ e ∈ c, 1 ≤ e) :
    round15 ((List.zipWith (fun (c : ℤ) (coeff : ℝ) => -(c : ℝ) * coeff)
      c saati_method).sum) ≤ -1 := by
  have h := zip_sum_le hc saati_method_nonneg
  rw [hlen, saati_method_take_nine] at h
  have := round15_mono h
  rw [round15_neg_one] at this
  exact this

/-- the all-ones criterion vector scores exactly `-1` against the Saati
weights. -/
lemma score_ones_eq_neg_one :
    round15 ((List.zipWith (fun (c : ℤ) (coeff : ℝ) => -(c : ℝ) * coeff)
      (List.replicate 9 (1 : ℤ)) saati_method).sum) = -1 := by
  rw [zip_sum_ones 9 saati_method, saati_method_take_nine, round15_neg_one]

end GA

namespace FirstStage

lemma calculate_criterions_length_first (x_list : List ℝ) (sol_list : List (List ℝ)) :
    (calculate_criterions x_list sol_list).length = sol_list.length := by
  simp [calculate_criterions]

lemma calculate_criterions_mem_first (x_list : List ℝ) (sol_list : List (List ℝ))
    {c : List ℤ} (hc : c ∈ calculate_criterions x_list sol_list) :
    c.length = 9 ∧ ∀ e ∈ c, e = 1 ∨ e = 2 := by
  simp only [calculate_criterions, List.mem_map] at hc
  obtain ⟨u, -, rfl⟩ := hc
  refine ⟨rfl, ?_⟩
  intro e he
  simp only [List.mem_cons, List.not_mem_nil, or_false] at he
  rcases he with rfl | rfl | rfl | rfl | rfl | rfl | rfl | rfl | rfl <;>
    exact GA.ite_class_mem _

lemma perfect_c_list_mem (x_list : List ℝ) :
    (perfect_c_list x_list).length = 9 ∧ ∀ e ∈ perfect_c_list x_list, e = 1 ∨ e = 2 := by
  refine ⟨rfl, ?_⟩
  intro e he
  simp only [perfect_c_list, List.mem_cons, List.not_mem_nil, or_false] at he
  rcases he with rfl | rfl | rfl | rfl | rfl | rfl | rfl | rfl | rfl
  · exact Or.inl rfl
  · exact Or.inl rfl
  all_goals exact GA.ite_class_mem _

/-- the first stage perfect value is at most the all-ones fitness. -/
lemma calculate_perfect_value_le (x_list : List ℝ) :
    calculate_perfect_value x_list GA.saati_method ≤ -1 := by
  unfold calculate_perfect_value
  refine GA.score_le_neg_one (perfect_c_list_mem x_list).1 ?_
  intro e he
  rcases (perfect_c_list_mem x_list).2 e he with rfl | rfl <;> norm_num

/-- every saati value of an evaluated first stage population is at most the
all-ones fitness. -/
lemma saati_le_neg_one_first (x_list : List ℝ) (sol_list : List (List ℝ)) :
    ∀ s ∈ GA.calculate_saati GA.saati_method (calculate_criterions x_list sol_list),
      s ≤ -1 := by
  intro s hs
  simp only [GA.calculate_saati, List.mem_map] at hs
  obtain ⟨c, hc, rfl⟩ := hs
  obtain ⟨hlen, hmem⟩ := calculate_criterions_mem_first x_list sol_list hc
  refine GA.score_le_neg_one hlen ?_
  intro e he
  rcases hmem e he with rfl | rfl <;> norm_num

end FirstStage

namespace SecondStage

lemma calculate_criterions_length_second (x_list : List ℝ) (sol_list : List (List ℝ)) :
    (calculate_criterions x_list sol_list).length = sol_list.length := by
  simp [calculate_criterions]

lemma calculate_criterions_mem_second (x_list : List ℝ) (sol_list : List (List ℝ))
    {c : List ℤ} (hc : c ∈ calculate_criterions x_list sol_list) :
    c.length = 9 ∧ ∀ e ∈ c, e = 1 ∨ e = 2 := by
  simp only [calculate_criterions, List.mem_map] at hc
  obtain ⟨u, -, rfl⟩ := hc
  refine ⟨rfl, ?_⟩
  intro e he
  simp only [List.mem_cons, List.not_mem_nil, or_false] at he
  rcases he with rfl | rfl | rfl | rfl | rfl | rfl | rfl | rfl | rfl <;>
    exact GA.ite_class_mem _

/-- every saati value of an evaluated second stage population is at most the
all-ones fitness. -/
lemma saati_le_neg_one_second (x_list : List ℝ) (sol_list : List (List ℝ)) :
    ∀ s ∈ GA.calculate_saati GA.saati_method (calculate_criterions x_list sol_list),
      s ≤ -1 := by
  intro s hs
  simp only [GA.calculate_saati, List.mem_map] at hs
  obtain ⟨c, hc, rfl⟩ := hs
  obtain ⟨hlen, hmem⟩ := calculate_criterions_mem_second x_list sol_list hc
  refine GA.score_le_neg_one hlen ?_
  intro e he
  rcases hmem e he with rfl | rfl <;> norm_num

end SecondStage

namespace GA

/-- evaluation rule for `pyRound` away from ties: if `x` lies strictly
between `n - 1/2` and `n + 1/2` then `pyRound x = n`. -/
lemma pyRound_eq_of {x : ℝ} {n : ℤ} (h1 : (n : ℝ) - 1 / 2 < x)
    (h2 : x < (n : ℝ) + 1 / 2) : pyRound x = n := by
  have hfl : ⌊x + 1 / 2⌋ = n := by
    rw [Int.floor_eq_iff]
    constructor
    · linarith
    · linarith
  unfold pyRound
  split
  · rename_i h
    have hx : x = ⌊x⌋ + 1 / 2 := by
      have := Int.floor_add_fract x
      rw [h] at this
      linarith
    have hb1 : (n : ℝ) - 1 < (⌊x⌋ : ℝ) := by linarith
    have hb2 : (⌊x⌋ : ℝ) < (n : ℝ) := by linarith
    have hi1 : n - 1 < ⌊x⌋ := by exact_mod_cast hb1
    have hi2 : ⌊x⌋ < n := by exact_mod_cast hb2
    omega
  · rw [round_eq]
    exact hfl

lemma getD_replicate {α : Type} {n i : ℕ} (a d : α) (h : i < n) :
    (List.replicate n a).getD i d = a := by
  rw [List.getD_eq_getElem _ _ (by simpa using h)]
  exact List.getElem_replicate a _

/-- crossover of a population of identical rows reproduces the population:
every coordinate of every child is copied from some full row of the
snapshot, and all rows are equal. -/
lemma crossover_replicate (r : List ℝ) (hr : r.length = SOLUTION_SIZE)
    (f m : List ℕ)
    (hf : ∀ i, i < POPULATION_NUMBER → f.getD i 0 < POPULATION_NUMBER)
    (hm : ∀ i, i < POPULATION_NUMBER → m.getD i 0 < POPULATION_NUMBER) :
    crossover (List.replicate POPULATION_NUMBER r)
        (List.replicate POPULATION_NUMBER r) f m =
      List.replicate POPULATION_NUMBER r := by
  have hlen : (List.replicate POPULATION_NUMBER r).length = POPULATION_NUMBER :=
    List.length_replicate _ _
  apply List.ext_getElem
  · rw [crossover_length, hlen]
  · intro i h1 h2
    have hi : i < POPULATION_NUMBER := by
      simpa using h2
    have hil : i < (List.replicate POPULATION_NUMBER r).length := by
      simpa using hi
    have hrowD : (List.replicate POPULATION_NUMBER r).getD i [] = r :=
      getD_replicate r [] hi
    have hrow : ((List.replicate POPULATION_NUMBER r).getD i []).length =
        SOLUTION_SIZE := by rw [hrowD, hr]
    have hcl : (crossover (List.replicate POPULATION_NUMBER r)
        (List.replicate POPULATION_NUMBER r) f m).getD i [] = r := by
      apply List.ext_getElem
      · rw [crossover_row_length _ _ f m hi hil, hrowD]
      · intro l hl1 hl2
        have hl : l < SOLUTION_SIZE := by
          rw [crossover_row_length _ _ f m hi hil, hrowD, hr] at hl1
          exact hl1
        have := crossover_coord (List.replicate POPULATION_NUMBER r)
          (List.replicate POPULATION_NUMBER r) f m hi hil hrow hl
        rw [← List.getD_eq_getElem _ 0 hl1, ← List.getD_eq_getElem _ 0 hl2, this]
        unfold crossover_source
        split
        · split
          · rw [getD_replicate r [] (hf i hi)]
          · rw [getD_replicate r [] (hm i hi)]
        · split
          · rw [getD_replicate r [] (hm i hi)]
          · rw [getD_replicate r [] (hf i hi)]
    rw [← List.getD_eq_getElem _ [] h1, ← List.getD_eq_getElem _ [] h2, hcl]
    exact (getD_replicate r [] hi).symm

end GA

namespace SecondStage

lemma perfect_c_list_x_zero :
    perfect_c_list x_zero = [1, 1, 1, 1, 1, 1, 1, 1, 2] := by
  have harith : 1.70408 + (0 : ℝ) * 0 * (-0.238892) + 0 ^ 2 * 0.170947 = 1.70408 := by
    norm_num
  have h : GA.pyRound (1.70408 + (0 : ℝ) * 0 * (-0.238892) + 0 ^ 2 * 0.170947) = 2 := by
    rw [harith]
    exact GA.pyRound_eq_of (by norm_num) (by norm_num)
  simp only [perfect_c_list, x_zero, List.getD_cons_zero, List.getD_cons_succ]
  rw [h]

lemma x_zero_pv_lt :
    calculate_perfect_value x_zero GA.saati_method < -1 := by
  unfold calculate_perfect_value
  rw [perfect_c_list_x_zero, GA.saati_method_eq]
  have hsum : (List.zipWith (fun (c : ℤ) (coeff : ℝ) => -(c : ℝ) * coeff)
      [1, 1, 1, 1, 1, 1, 1, 1, 2]
      [2520 / 7129, 1260 / 7129, 840 / 7129, 630 / 7129, 504 / 7129,
       420 / 7129, 360 / 7129, 315 / 7129, 280 / 7129]).sum = -(7409 / 7129) := by
    norm_num [List.zipWith]
  rw [hsum]
  have h := GA.round15_le (-(7409 / 7129))
  have hlt : (-(7409 / 7129) : ℝ) + 1 / (2 * 10 ^ 15) < -1 := by norm_num
  linarith

lemma perfect_c_list_x_cex :
    perfect_c_list x_cex = [1, 1, 1, 1, 1, 1, 1, 1, -22] := by
  have h : GA.pyRound (1.70408 + (10 : ℝ) * 10 * (-0.238892) + 1 ^ 2 * 0.170947) =
      -22 := by
    have harith : 1.70408 + (10 : ℝ) * 10 * (-0.238892) + 1 ^ 2 * 0.170947 =
        -22.014173 := by norm_num
    rw [harith]
    exact GA.pyRound_eq_of (by norm_num) (by norm_num)
  simp only [perfect_c_list, x_cex, List.getD_cons_zero, List.getD_cons_succ]
  rw [h]

lemma cex_zip_sum :
    (List.zipWith (fun (c : ℤ) (coeff : ℝ) => -(c : ℝ) * coeff)
      (perfect_c_list x_cex) GA.saati_method).sum = -(689 / 7129) := by
  rw [perfect_c_list_x_cex, GA.saati_method_eq]
  norm_num [List.zipWith]

lemma cex_pv_gt : cex_pv > -1 := by
  unfold cex_pv calculate_perfect_value
  rw [cex_zip_sum]
  have h := GA.le_round15 (-(689 / 7129))
  have hgt : (-1 : ℝ) < -(689 / 7129) - 1 / (2 * 10 ^ 15) := by norm_num
  linarith

lemma cex_pv_ne_zero : cex_pv ≠ 0 := by
  unfold cex_pv calculate_perfect_value
  rw [cex_zip_sum]
  have h := GA.round15_le (-(689 / 7129))
  have hlt : (-(689 / 7129) : ℝ) + 1 / (2 * 10 ^ 15) < 0 := by norm_num
  intro h0
  rw [h0] at h
  linarith

/-- over the condition `x_cex` the convergence scan of the generation loop
never fires: every attainable fitness is at most `-1 < cex_pv`, and the
out-of-range default `0` differs from `cex_pv` as well. -/
lemma cex_find_none (sol_list : List (List ℝ)) :
    (List.range GA.POPULATION_NUMBER).find?
      (fun i => decide ((GA.calculate_saati GA.saati_method
        (calculate_criterions x_cex sol_list)).getD i 0 = cex_pv)) = none := by
  rw [List.find?_eq_none]
  intro i _
  simp only [decide_eq_true_eq]
  intro heq
  by_cases hlt : i < (GA.calculate_saati GA.saati_method
      (calculate_criterions x_cex sol_list)).length
  · have hmem : (GA.calculate_saati GA.saati_method
        (calculate_criterions x_cex sol_list)).getD i 0 ∈
        GA.calculate_saati GA.saati_method (calculate_criterions x_cex sol_list) := by
      rw [List.getD_eq_getElem _ _ hlt]
      exact List.getElem_mem _
    have hle := saati_le_neg_one_second x_cex sol_list _ hmem
    rw [heq] at hle
    have := cex_pv_gt
    linarith
  · rw [List.getD_eq_default _ _ (le_of_not_lt hlt)] at heq
    exact cex_pv_ne_zero heq.symm

lemma cex_crossover :
    GA.crossover cex_sol cex_sol cex_fathers cex_mothers = cex_sol := by
  unfold cex_sol
  apply GA.crossover_replicate
  · rfl
  · intro i hi
    by_cases h : i < cex_fathers.length
    · rw [List.getD_eq_getElem _ _ h]
      have : cex_fathers[i] = i % 2 := by
        simp [cex_fathers]
      rw [this]
      have := Nat.mod_lt i (y := 2) (by norm_num)
      unfold GA.POPULATION_NUMBER
      omega
    · rw [List.getD_eq_default _ _ (le_of_not_lt h)]
      unfold GA.POPULATION_NUMBER
      omega
  · intro i hi
    by_cases h : i < cex_mothers.length
    · rw [List.getD_eq_getElem _ _ h]
      have : cex_mothers[i] = i % 2 + 2 := by
        simp [cex_mothers]
      rw [this]
      have := Nat.mod_lt i (y := 2) (by norm_num)
      unfold GA.POPULATION_NUMBER
      omega
    · rw [List.getD_eq_default _ _ (le_of_not_lt h)]
      unfold GA.POPULATION_NUMBER
      omega

/-- on the scenario state the generation loop body always takes the
crossover branch (which reproduces the population), as long as fewer than
two means are recorded so far. -/
lemma cex_step (means : List ℝ) (hm : means.length ≤ 1) :
    GA.generation_step (calculate_criterions x_cex) _random_solution
        GA.saati_method cex_pv cex_tape cex_sol means =
      GA.StepResult.crossed cex_sol (means ++ [cex_mean]) cex_crit cex_saati := by
  simp only [GA.generation_step]
  rw [cex_find_none cex_sol]
  rw [if_neg]
  · rw [if_neg]
    · rw [show cex_tape.mothers = fun _ _ => cex_mothers from rfl,
        show cex_tape.fathers = fun _ => cex_fathers from rfl]
      rw [show GA.crossover cex_sol cex_sol cex_fathers cex_mothers = cex_sol from
        cex_crossover]
      rfl
    · rw [show cex_tape.fathers = fun _ => cex_fathers from rfl]
      show ¬cex_fathers.dedup.length ≤ 1
      decide
  · intro hc
    have h2 := hc.1
    rw [List.length_append, List.length_singleton] at h2
    omega

end SecondStage

namespace GA

/-- crossover keeps a population of 32 rows of 9 coordinates whose
coordinates satisfy a per-position predicate `P`, provided the parent
indices point into the population. -/
lemma crossover_preserves (P : ℕ → ℝ → Prop) (pop : List (List ℝ))
    (father_list mother_list : List ℕ)
    (hlen : pop.length = POPULATION_NUMBER)
    (hall : ∀ u ∈ pop, u.length = SOLUTION_SIZE ∧
      ∀ l, l < SOLUTION_SIZE → P l (u.getD l 0))
    (hf : ∀ i, i < POPULATION_NUMBER → father_list.getD i 0 < POPULATION_NUMBER)
    (hm : ∀ i, i < POPULATION_NUMBER → mother_list.getD i 0 < POPULATION_NUMBER) :
    (crossover pop pop father_list mother_list).length = POPULATION_NUMBER ∧
      ∀ u ∈ crossover pop pop father_list mother_list,
        u.length = SOLUTION_SIZE ∧ ∀ l, l < SOLUTION_SIZE → P l (u.getD l 0) := by
  have hclen : (crossover pop pop father_list mother_list).length = POPULATION_NUMBER := by
    rw [crossover_length, hlen]
  refine ⟨hclen, ?_⟩
  intro u hu
  obtain ⟨i, hi, hieq⟩ := List.mem_iff_getElem.mp hu
  have hi32 : i < POPULATION_NUMBER := by rw [hclen] at hi; exact hi
  have hil : i < pop.length := by rw [hlen]; exact hi32
  have hpopmem : pop.getD i [] ∈ pop := by
    rw [List.getD_eq_getElem _ _ hil]
    exact List.getElem_mem _
  obtain ⟨hrowlen, hrowP⟩ := hall _ hpopmem
  have hu_eq : u = (crossover pop pop father_list mother_list).getD i [] := by
    rw [List.getD_eq_getElem _ _ hi, hieq]
  have hulen : u.length = SOLUTION_SIZE := by
    rw [hu_eq, crossover_row_length pop pop father_list mother_list hi32 hil, hrowlen]
  refine ⟨hulen, ?_⟩
  intro l hl
  have hcoord := crossover_coord pop pop father_list mother_list hi32 hil hrowlen hl
  rw [hu_eq, hcoord]
  unfold crossover_source
  have hparent : ∀ p, p < POPULATION_NUMBER → pop.getD p [] ∈ pop := by
    intro p hp
    rw [List.getD_eq_getElem _ _ (by rw [hlen]; exact hp)]
    exact List.getElem_mem _
  split
  · split
    · exact (hall _ (hparent _ (hf i hi32))).2 l hl
    · exact (hall _ (hparent _ (hm i hi32))).2 l hl
  · split
    · exact (hall _ (hparent _ (hm i hi32))).2 l hl
    · exact (hall _ (hparent _ (hf i hi32))).2 l hl

/-- mutation keeps a population of 32 rows of 9 coordinates whose
coordinates satisfy a per-position predicate `P`, provided the fresh rows
do. -/
lemma mutation_preserves (P : ℕ → ℝ → Prop) (fresh : ℕ → List ℝ)
    (pop : List (List ℝ)) (hlen : pop.length = POPULATION_NUMBER)
    (hall : ∀ u ∈ pop, u.length = SOLUTION_SIZE ∧
      ∀ l, l < SOLUTION_SIZE → P l (u.getD l 0))
    (hfresh : ∀ i, 1 ≤ i → i < POPULATION_NUMBER →
      (fresh i).length = SOLUTION_SIZE ∧
        ∀ l, l < SOLUTION_SIZE → P l ((fresh i).getD l 0)) :
    (mutation fresh pop).length = POPULATION_NUMBER ∧
      ∀ u ∈ mutation fresh pop,
        u.length = SOLUTION_SIZE ∧ ∀ l, l < SOLUTION_SIZE → P l (u.getD l 0) := by
  have hmlen : (mutation fresh pop).length = POPULATION_NUMBER := by
    rw [mutation_length, hlen]
  refine ⟨hmlen, ?_⟩
  intro u hu
  obtain ⟨i, hi, hieq⟩ := List.mem_iff_getElem.mp hu
  have hi32 : i < POPULATION_NUMBER := by rw [hmlen] at hi; exact hi
  have hu_eq : u = (mutation fresh pop).getD i [] := by
    rw [List.getD_eq_getElem _ _ hi, hieq]
  rw [hu_eq, mutation_getD]
  split
  · rename_i hcond
    exact hfresh i hcond.1.1 hcond.1.2
  · have hpopmem : pop.getD i [] ∈ pop := by
      rw [List.getD_eq_getElem _ _ (by rw [hlen]; exact hi32)]
      exact List.getElem_mem _
    exact hall _ hpopmem

end GA

namespace FirstStage

/-- `_random_solution()` output lies inside the declared ranges whenever
the `randint` draws do. -/
lemma random_solution_in_range_first {r : List ℤ} (h : draws_ok r) :
    solInRange (_random_solution r) := by
  obtain ⟨-, h1, h2, h3, h4, h5, h6, h7, h8, h9⟩ := h
  simp only [randint_ok, X201_RANGE, X202_RANGE, X203_RANGE, X204_RANGE,
    X205_RANGE, X206_RANGE, X207_RANGE, X208_RANGE, X209_RANGE] at h1 h2 h3 h4 h5 h6 h7 h8 h9
  refine ⟨rfl, ?_⟩
  intro l hl
  have hl9 : l < 9 := hl
  interval_cases l <;>
    simp only [_random_solution, bounds, List.getD_cons_zero, List.getD_cons_succ] <;>
    constructor
  · have hc : (1 : ℝ) ≤ (r.getD 0 0 : ℝ) := by exact_mod_cast h1.1
    linarith
  · have hc : (r.getD 0 0 : ℝ) ≤ 10000 := by exact_mod_cast h1.2
    linarith
  · have hc : (1 : ℝ) ≤ (r.getD 1 0 : ℝ) := by exact_mod_cast h2.1
    linarith
  · have hc : (r.getD 1 0 : ℝ) ≤ 25000 := by exact_mod_cast h2.2
    linarith
  · exact_mod_cast h3.1
  · exact_mod_cast h3.2
  · exact_mod_cast h4.1
  · exact_mod_cast h4.2
  · exact_mod_cast h5.1
  · exact_mod_cast h5.2
  · exact_mod_cast h6.1
  · exact_mod_cast h6.2
  · exact_mod_cast h7.1
  · exact_mod_cast h7.2
  · exact_mod_cast h8.1
  · exact_mod_cast h8.2
  · exact_mod_cast h9.1
  · exact_mod_cast h9.2

end FirstStage

namespace SecondStage

/-- `_random_solution()` output lies inside the declared ranges whenever
the `randint` draws do. -/
lemma random_solution_in_range_second {r : List ℤ} (h : draws_ok r) :
    solInRange (_random_solution r) := by
  obtain ⟨-, h1, h2, h3, h4, h5, h6, h7, h8, h9⟩ := h
  simp only [randint_ok, X401_RANGE, X402_RANGE, X403_RANGE, X404_RANGE,
    X405_RANGE, X406_RANGE, X407_RANGE, X408_RANGE, X409_RANGE] at h1 h2 h3 h4 h5 h6 h7 h8 h9
  refine ⟨rfl, ?_⟩
  intro l hl
  have hl9 : l < 9 := hl
  interval_cases l <;>
    simp only [_random_solution, bounds, List.getD_cons_zero, List.getD_cons_succ] <;>
    constructor
  · have hc : (1 : ℝ) ≤ (r.getD 0 0 : ℝ) := by exact_mod_cast h1.1
    linarith
  · have hc : (r.getD 0 0 : ℝ) ≤ 4200 := by exact_mod_cast h1.2
    linarith
  · exact_mod_cast h2.1
  · exact_mod_cast h2.2
  · have hc : (0 : ℝ) ≤ (r.getD 2 0 : ℝ) := by exact_mod_cast h3.1
    linarith
  · have hc : (r.getD 2 0 : ℝ) ≤ 100 := by exact_mod_cast h3.2
    linarith
  · exact_mod_cast h4.1
  · exact_mod_cast h4.2
  · exact_mod_cast h5.1
  · exact_mod_cast h5.2
  · exact_mod_cast h6.1
  · exact_mod_cast h6.2
  · exact_mod_cast h7.1
  · exact_mod_cast h7.2
  · exact_mod_cast h8.1
  · exact_mod_cast h8.2
  · exact_mod_cast h9.1
  · exact_mod_cast h9.2

end SecondStage

/-- C6: the WeightVector produced by `saati_method` is a sequence of 9
entries that are all positive, strictly decreasing by index (the weight of
criterion 1 is the largest), and sum to 1. -/
theorem c6_weight_vector :
    GA.saati_method.length = 9 ∧ (∀ v ∈ GA.saati_method, 0 < v) ∧
      GA.saati_method.Pairwise (fun a b => b < a) ∧ GA.saati_method.sum = 1 := by
  rw [GA.saati_method_eq]
  refine ⟨rfl, ?_, ?_, by norm_num⟩
  · intro v hv
    simp only [List.mem_cons, List.not_mem_nil, or_false] at hv
    rcases hv with rfl | rfl | rfl | rfl | rfl | rfl | rfl | rfl | rfl <;> norm_num
  · norm_num [List.pairwise_cons]

/-- C1 counterexample: over the all-zero conservative ConditionVector the
all-ones CriterionVector, whose entries lie in 1..2, scores `-1` against
the WeightVector, strictly greater than the PerfectValue computed by
`calculate_perfect_value` — so the PerfectValue is not the maximum
attainable fitness. -/
theorem c1_counterexample :
    ((List.replicate 9 (1 : ℤ)).length = 9 ∧
      ∀ e ∈ List.replicate 9 (1 : ℤ), e = 1 ∨ e = 2) ∧
    SecondStage.calculate_perfect_value SecondStage.x_zero GA.saati_method <
      (GA.calculate_saati GA.saati_method [List.replicate 9 (1 : ℤ)]).getD 0 0 := by
  refine ⟨⟨by simp, fun e he => Or.inl (List.eq_of_mem_replicate he)⟩, ?_⟩
  have hs : (GA.calculate_saati GA.saati_method [List.replicate 9 (1 : ℤ)]).getD 0 0 =
      -1 := by
    simp only [GA.calculate_saati, List.map_cons, List.map_nil, List.getD_cons_zero]
    exact GA.score_ones_eq_neg_one
  rw [hs]
  exact SecondStage.x_zero_pv_lt

/-- C1 amended: the all-ones CriterionVector attains the maximum fitness
among CriterionVectors with entries in 1..2 — no such vector scores
strictly greater than the all-ones fitness.  The PerfectValue equals the
fitness of the ideal criterion list computed by `calculate_perfect_value`
and coincides with this maximum only when that list is all ones; it can lie
strictly below it (see the counterexample). -/
theorem c1_amended (c : List ℤ) (hlen : c.length = 9)
    (hc : ∀ e ∈ c, e = 1 ∨ e = 2) :
    (GA.calculate_saati GA.saati_method [c]).getD 0 0 ≤
      (GA.calculate_saati GA.saati_method [List.replicate 9 (1 : ℤ)]).getD 0 0 := by
  have hs : (GA.calculate_saati GA.saati_method [List.replicate 9 (1 : ℤ)]).getD 0 0 =
      -1 := by
    simp only [GA.calculate_saati, List.map_cons, List.map_nil, List.getD_cons_zero]
    exact GA.score_ones_eq_neg_one
  rw [hs]
  simp only [GA.calculate_saati, List.map_cons, List.map_nil, List.getD_cons_zero]
  refine GA.score_le_neg_one hlen ?_
  intro e he
  rcases hc e he with rfl | rfl <;> norm_num

/-- witness for the amended C1 at the all-twos CriterionVector. -/
theorem c1_amended_witness :
    ((List.replicate 9 (2 : ℤ)).length = 9 ∧
      ∀ e ∈ List.replicate 9 (2 : ℤ), e = 1 ∨ e = 2) ∧
    (GA.calculate_saati GA.saati_method [List.replicate 9 (2 : ℤ)]).getD 0 0 ≤
      (GA.calculate_saati GA.saati_method [List.replicate 9 (1 : ℤ)]).getD 0 0 :=
  ⟨⟨by simp, fun e he => Or.inr (List.eq_of_mem_replicate he)⟩,
    c1_amended (List.replicate 9 2) (by simp)
      (fun e he => Or.inr (List.eq_of_mem_replicate he))⟩

/-- C4: the crossover child at slot `i` takes its first `(i % 8) + 1`
coordinates from the father parent when `i % 16 < 8` (otherwise from the
mother), and the remaining coordinates from the other parent; every
coordinate is read from the immutable snapshot `temp_sol_list`, never from
an already-updated slot of the population being written. -/
theorem c4_crossover_split (sol_list temp_sol_list : List (List ℝ))
    (father_list mother_list : List ℕ) (i l : ℕ)
    (hi : i < GA.POPULATION_NUMBER) (hl : l < GA.SOLUTION_SIZE)
    (hlen : sol_list.length = GA.POPULATION_NUMBER)
    (hrow : (sol_list.getD i []).length = GA.SOLUTION_SIZE) :
    ((GA.crossover sol_list temp_sol_list father_list mother_list).getD i []).getD l 0 =
      if l < i % 8 + 1 then
        (temp_sol_list.getD
          (if i % 16 < 8 then father_list.getD i 0 else mother_list.getD i 0) []).getD l 0
      else
        (temp_sol_list.getD
          (if i % 16 < 8 then mother_list.getD i 0 else father_list.getD i 0) []).getD l 0 := by
  rw [GA.crossover_coord sol_list temp_sol_list father_list mother_list hi
    (by rw [hlen]; exact hi) hrow hl]
  rfl

/-- witness for C4 at a concrete population, snapshot and parent lists. -/
theorem c4_crossover_split_witness :
    ((3 : ℕ) < GA.POPULATION_NUMBER ∧ (5 : ℕ) < GA.SOLUTION_SIZE ∧
      (List.replicate 32 (List.replicate 9 (0 : ℝ))).length = GA.POPULATION_NUMBER ∧
      ((List.replicate 32 (List.replicate 9 (0 : ℝ))).getD 3 []).length =
        GA.SOLUTION_SIZE) ∧
    ((GA.crossover (List.replicate 32 (List.replicate 9 (0 : ℝ)))
        (List.replicate 32 [0, 1, 2, 3, 4, 5, 6, 7, (8 : ℝ)])
        (List.replicate 32 0) (List.replicate 32 1)).getD 3 []).getD 5 0 =
      if 5 < 3 % 8 + 1 then
        ((List.replicate 32 [0, 1, 2, 3, 4, 5, 6, 7, (8 : ℝ)]).getD
          (if 3 % 16 < 8 then (List.replicate 32 (0 : ℕ)).getD 3 0
            else (List.replicate 32 (1 : ℕ)).getD 3 0) []).getD 5 0
      else
        ((List.replicate 32 [0, 1, 2, 3, 4, 5, 6, 7, (8 : ℝ)]).getD
          (if 3 % 16 < 8 then (List.replicate 32 (1 : ℕ)).getD 3 0
            else (List.replicate 32 (0 : ℕ)).getD 3 0) []).getD 5 0 := by
  have h3 : (3 : ℕ) < GA.POPULATION_NUMBER := by norm_num [GA.POPULATION_NUMBER]
  have h5 : (5 : ℕ) < GA.SOLUTION_SIZE := by norm_num [GA.SOLUTION_SIZE]
  have hlen : (List.replicate 32 (List.replicate 9 (0 : ℝ))).length =
      GA.POPULATION_NUMBER := by simp [GA.POPULATION_NUMBER]
  have hrow : ((List.replicate 32 (List.replicate 9 (0 : ℝ))).getD 3 []).length =
      GA.SOLUTION_SIZE := by
    rw [GA.getD_replicate _ _ (by norm_num)]
    simp [GA.SOLUTION_SIZE]
  exact ⟨⟨h3, h5, hlen, hrow⟩,
    c4_crossover_split (List.replicate 32 (List.replicate 9 (0 : ℝ)))
      (List.replicate 32 [0, 1, 2, 3, 4, 5, 6, 7, (8 : ℝ)])
      (List.replicate 32 0) (List.replicate 32 1) 3 5 h3 h5 hlen hrow⟩

/-- C3: when the exact-match convergence scan over the 32 slots finds no
candidate whose saati value equals the PerfectValue — the only situation in
which `calculate_treatment` goes on to compute probabilities — every entry
of the Discrepancy list handed to `get_probabilities` is nonzero, so the
division `1/d` never divides by zero. -/
theorem c3_no_zero_discrepancy (x_list : List ℝ) (sol_list : List (List ℝ))
    (hfind : (List.range GA.POPULATION_NUMBER).find?
      (fun i => decide ((GA.calculate_saati GA.saati_method
        (FirstStage.calculate_criterions x_list sol_list)).getD i 0 =
        FirstStage.calculate_perfect_value x_list GA.saati_method)) = none)
    (hlen : sol_list.length ≤ GA.POPULATION_NUMBER) :
    ∀ d ∈ GA.get_discrepancies
        (FirstStage.calculate_perfect_value x_list GA.saati_method)
        (GA.calculate_saati GA.saati_method
          (FirstStage.calculate_criterions x_list sol_list)), d ≠ 0 := by
  intro d hd
  simp only [GA.get_discrepancies, List.mem_map] at hd
  obtain ⟨s, hs, rfl⟩ := hd
  rw [List.find?_eq_none] at hfind
  obtain ⟨i, hi, hieq⟩ := List.mem_iff_getElem.mp hs
  have hsl : (GA.calculate_saati GA.saati_method
      (FirstStage.calculate_criterions x_list sol_list)).length = sol_list.length := by
    simp [GA.calculate_saati, FirstStage.calculate_criterions]
  have hi32 : i < GA.POPULATION_NUMBER := by
    rw [hsl] at hi
    omega
  have hne := hfind i (List.mem_range.mpr hi32)
  simp only [decide_eq_true_eq] at hne
  rw [List.getD_eq_getElem _ _ hi, hieq] at hne
  exact sub_ne_zero.mpr (Ne.symm hne)

/-- witness for C3: the empty population over the all-ones condition vector
satisfies the convergence-scan hypothesis because the PerfectValue is at
most `-1`, never `0`. -/
theorem c3_no_zero_discrepancy_witness :
    ((List.range GA.POPULATION_NUMBER).find?
      (fun i => decide ((GA.calculate_saati GA.saati_method
        (FirstStage.calculate_criterions (List.replicate 12 (1 : ℝ)) [])).getD i 0 =
        FirstStage.calculate_perfect_value (List.replicate 12 (1 : ℝ))
          GA.saati_method)) = none) ∧
    (([] : List (List ℝ)).length ≤ GA.POPULATION_NUMBER) ∧
    ∀ d ∈ GA.get_discrepancies
        (FirstStage.calculate_perfect_value (List.replicate 12 (1 : ℝ)) GA.saati_method)
        (GA.calculate_saati GA.saati_method
          (FirstStage.calculate_criterions (List.replicate 12 (1 : ℝ)) [])),
      d ≠ 0 := by
  have hfind : (List.range GA.POPULATION_NUMBER).find?
      (fun i => decide ((GA.calculate_saati GA.saati_method
        (FirstStage.calculate_criterions (List.replicate 12 (1 : ℝ)) [])).getD i 0 =
        FirstStage.calculate_perfect_value (List.replicate 12 (1 : ℝ))
          GA.saati_method)) = none := by
    rw [List.find?_eq_none]
    intro i _
    simp only [decide_eq_true_eq]
    have hempty : GA.calculate_saati GA.saati_method
        (FirstStage.calculate_criterions (List.replicate 12 (1 : ℝ)) []) = [] := by
      simp [GA.calculate_saati, FirstStage.calculate_criterions]
    rw [hempty]
    have hle := FirstStage.calculate_perfect_value_le (List.replicate 12 (1 : ℝ))
    intro h0
    have h0' : (0 : ℝ) = FirstStage.calculate_perfect_value
        (List.replicate 12 (1 : ℝ)) GA.saati_method := h0
    rw [← h0'] at hle
    norm_num at hle
  exact ⟨hfind, by norm_num,
    c3_no_zero_discrepancy (List.replicate 12 (1 : ℝ)) [] hfind (by norm_num)⟩

/-- C2 counterexample: over the condition vector `x_cex`, a run starting
from 32 identical rows records mean Discrepancy `cex_mean` at generation 0
and computes the very same mean at generation 1 — the current mean equals
the mean of the immediately preceding generation — yet generation 1 still
performs crossover (`StepResult.crossed`), not mutation, because the code's
guard `len(mean_list) > 2` requires a third recorded mean. -/
theorem c2_counterexample :
    GA.generation_step (SecondStage.calculate_criterions SecondStage.x_cex)
        SecondStage._random_solution GA.saati_method SecondStage.cex_pv
        SecondStage.cex_tape SecondStage.cex_sol [] =
      GA.StepResult.crossed SecondStage.cex_sol [SecondStage.cex_mean]
        SecondStage.cex_crit SecondStage.cex_saati ∧
    GA.generation_step (SecondStage.calculate_criterions SecondStage.x_cex)
        SecondStage._random_solution GA.saati_method SecondStage.cex_pv
        SecondStage.cex_tape SecondStage.cex_sol [SecondStage.cex_mean] =
      GA.StepResult.crossed SecondStage.cex_sol
        [SecondStage.cex_mean, SecondStage.cex_mean]
        SecondStage.cex_crit SecondStage.cex_saati := by
  constructor
  · exact SecondStage.cex_step [] (by norm_num)
  · have h := SecondStage.cex_step [SecondStage.cex_mean] (by norm_num)
    simpa using h

/-- C2 amended: whenever at least two means are already recorded (so the
guard `len(mean_list) > 2` holds after appending the current mean) and the
most recent recorded mean equals the newly computed mean of the current
generation, a non-converged generation performs mutation — and never
crossover — for the next generation.  With fewer recorded means, equal
consecutive means still lead to crossover (see the counterexample). -/
theorem c2_amended (evalCrit : List (List ℝ) → List (List ℤ))
    (randSol : List ℤ → List ℝ) (coeff_list : List ℝ) (perfect_value : ℝ)
    (tape : GA.GenTape) (sol_list : List (List ℝ)) (mean_list : List ℝ)
    (hfind : (List.range GA.POPULATION_NUMBER).find?
      (fun i => decide ((GA.calculate_saati coeff_list (evalCrit sol_list)).getD i 0 =
        perfect_value)) = none)
    (h2 : 2 ≤ mean_list.length)
    (heq : mean_list.getD (mean_list.length - 1) 0 =
      (GA.get_discrepancies perfect_value
        (GA.calculate_saati coeff_list (evalCrit sol_list))).sum /
        ((GA.get_discrepancies perfect_value
          (GA.calculate_saati coeff_list (evalCrit sol_list))).length : ℝ)) :
    GA.generation_step evalCrit randSol coeff_list perfect_value tape sol_list
        mean_list =
      GA.StepResult.mutated
        (GA.mutation (fun i => randSol (tape.mutDraws i)) sol_list)
        (mean_list ++
          [(GA.get_discrepancies perfect_value
              (GA.calculate_saati coeff_list (evalCrit sol_list))).sum /
            ((GA.get_discrepancies perfect_value
              (GA.calculate_saati coeff_list (evalCrit sol_list))).length : ℝ)])
        (evalCrit sol_list)
        (GA.calculate_saati coeff_list (evalCrit sol_list)) := by
  simp only [GA.generation_step]
  rw [hfind]
  rw [if_pos]
  constructor
  · rw [List.length_append, List.length_singleton]
    omega
  · rw [List.length_append, List.length_singleton]
    have hidx1 : mean_list.length + 1 - 2 = mean_list.length - 1 := by omega
    have hidx2 : mean_list.length + 1 - 1 = mean_list.length := by omega
    rw [hidx1, hidx2]
    rw [List.getD_append _ _ _ _ (by omega)]
    rw [List.getD_append_right _ _ _ _ (by omega)]
    simp only [Nat.sub_self, List.getD_cons_zero]
    exact heq

/-- witness for the amended C2 on the concrete stagnating state. -/
theorem c2_amended_witness :
    ((List.range GA.POPULATION_NUMBER).find?
      (fun i => decide ((GA.calculate_saati GA.saati_method
        (SecondStage.calculate_criterions SecondStage.x_cex SecondStage.cex_sol)).getD i 0 =
        SecondStage.cex_pv)) = none) ∧
    2 ≤ ([SecondStage.cex_mean, SecondStage.cex_mean] : List ℝ).length ∧
    GA.generation_step
        (SecondStage.calculate_criterions SecondStage.x_cex)
        SecondStage._random_solution GA.saati_method SecondStage.cex_pv
        SecondStage.cex_tape SecondStage.cex_sol
        [SecondStage.cex_mean, SecondStage.cex_mean] =
      GA.StepResult.mutated
        (GA.mutation (fun i => SecondStage._random_solution
          (SecondStage.cex_tape.mutDraws i)) SecondStage.cex_sol)
        ([SecondStage.cex_mean, SecondStage.cex_mean] ++
          [(GA.get_discrepancies SecondStage.cex_pv
              (GA.calculate_saati GA.saati_method
                (SecondStage.calculate_criterions SecondStage.x_cex
                  SecondStage.cex_sol))).sum /
            ((GA.get_discrepancies SecondStage.cex_pv
              (GA.calculate_saati GA.saati_method
                (SecondStage.calculate_criterions SecondStage.x_cex
                  SecondStage.cex_sol))).length : ℝ)])
        (SecondStage.calculate_criterions SecondStage.x_cex SecondStage.cex_sol)
        (GA.calculate_saati GA.saati_method
          (SecondStage.calculate_criterions SecondStage.x_cex SecondStage.cex_sol)) := by
  have hfind := SecondStage.cex_find_none SecondStage.cex_sol
  refine ⟨hfind, by norm_num, ?_⟩
  exact c2_amended (SecondStage.calculate_criterions SecondStage.x_cex)
    SecondStage._random_solution GA.saati_method SecondStage.cex_pv
    SecondStage.cex_tape SecondStage.cex_sol
    [SecondStage.cex_mean, SecondStage.cex_mean] hfind (by norm_num) rfl

/-- C7 evidence: when the generation before exhaustion performs crossover,
the exhausted branch of the loop returns the element at the
minimum-discrepancy index taken from the once-more-updated population `s'`,
while the criterion vector it returns comes from `cr`, the evaluation of
the population *before* that final crossover.  The returned pair therefore
does not consist of the minimum-discrepancy candidate of the final
evaluated generation together with that candidate's criterion vector. -/
theorem c7_exhausted_mismatch (evalCrit : List (List ℝ) → List (List ℤ))
    (randSol : List ℤ → List ℝ) (coeff_list : List ℝ) (perfect_value : ℝ)
    (tape : ℕ → GA.GenTape) (gen : ℕ) (sol_list : List (List ℝ))
    (mean_list : List ℝ) (prev_crit : List (List ℤ)) (prev_saati : List ℝ)
    (s' : List (List ℝ)) (m' : List ℝ) (cr : List (List ℤ)) (sa : List ℝ)
    (hstep : GA.generation_step evalCrit randSol coeff_list perfect_value
      (tape gen) sol_list mean_list = GA.StepResult.crossed s' m' cr sa) :
    GA.run_loop evalCrit randSol coeff_list perfect_value tape 1 gen sol_list
        mean_list (prev_crit, prev_saati) =
      GA.Outcome.exhausted
        (s'.getD (GA.argmin_idx (GA.get_discrepancies perfect_value sa)) [])
        (cr.getD (GA.argmin_idx (GA.get_discrepancies perfect_value sa)) []) := by
  rw [show (1 : ℕ) = 0 + 1 from rfl]
  simp only [GA.run_loop]
  rw [hstep]

/-- witness for the C7 mismatch on the concrete scenario: one crossover
generation over `x_cex` followed by exhaustion. -/
theorem c7_exhausted_mismatch_witness :
    (GA.generation_step (SecondStage.calculate_criterions SecondStage.x_cex)
        SecondStage._random_solution GA.saati_method SecondStage.cex_pv
        ((fun _ => SecondStage.cex_tape) 0) SecondStage.cex_sol [] =
      GA.StepResult.crossed SecondStage.cex_sol [SecondStage.cex_mean]
        SecondStage.cex_crit SecondStage.cex_saati) ∧
    GA.run_loop (SecondStage.calculate_criterions SecondStage.x_cex)
        SecondStage._random_solution GA.saati_method SecondStage.cex_pv
        (fun _ => SecondStage.cex_tape) 1 0 SecondStage.cex_sol [] ([], []) =
      GA.Outcome.exhausted
        (SecondStage.cex_sol.getD
          (GA.argmin_idx (GA.get_discrepancies SecondStage.cex_pv
            SecondStage.cex_saati)) [])
        (SecondStage.cex_crit.getD
          (GA.argmin_idx (GA.get_discrepancies SecondStage.cex_pv
            SecondStage.cex_saati)) []) := by
  have hstep := SecondStage.cex_step [] (by norm_num)
  exact ⟨hstep,
    c7_exhausted_mismatch (SecondStage.calculate_criterions SecondStage.x_cex)
      SecondStage._random_solution GA.saati_method SecondStage.cex_pv
      (fun _ => SecondStage.cex_tape) 0 SecondStage.cex_sol [] [] []
      SecondStage.cex_sol [SecondStage.cex_mean] SecondStage.cex_crit
      SecondStage.cex_saati hstep⟩

/-- C8: after a mutation event the slot-0 vector is identical to its
pre-mutation value and every slot 1..31 holds the freshly drawn random
vector of that slot, which lies inside the declared ranges whenever its
`randint` draws do — in both stages. -/
theorem c8_mutation_frame (draws : ℕ → List ℤ) (sol_list : List (List ℝ))
    (hlen : sol_list.length = GA.POPULATION_NUMBER) :
    ((GA.mutation (fun i => FirstStage._random_solution (draws i)) sol_list).getD 0 [] =
        sol_list.getD 0 [] ∧
      (GA.mutation (fun i => FirstStage._random_solution (draws i)) sol_list).length =
        GA.POPULATION_NUMBER ∧
      ∀ i, 1 ≤ i → i < GA.POPULATION_NUMBER →
        (GA.mutation (fun i => FirstStage._random_solution (draws i)) sol_list).getD i [] =
          FirstStage._random_solution (draws i) ∧
        (FirstStage.draws_ok (draws i) →
          FirstStage.solInRange
            ((GA.mutation (fun i => FirstStage._random_solution (draws i))
              sol_list).getD i []))) ∧
    ((GA.mutation (fun i => SecondStage._random_solution (draws i)) sol_list).getD 0 [] =
        sol_list.getD 0 [] ∧
      (GA.mutation (fun i => SecondStage._random_solution (draws i)) sol_list).length =
        GA.POPULATION_NUMBER ∧
      ∀ i, 1 ≤ i → i < GA.POPULATION_NUMBER →
        (GA.mutation (fun i => SecondStage._random_solution (draws i)) sol_list).getD i [] =
          SecondStage._random_solution (draws i) ∧
        (SecondStage.draws_ok (draws i) →
          SecondStage.solInRange
            ((GA.mutation (fun i => SecondStage._random_solution (draws i))
              sol_list).getD i []))) := by
  constructor
  · refine ⟨?_, ?_, ?_⟩
    · rw [GA.mutation_getD]
      rw [if_neg]
      intro hc
      exact absurd hc.1.1 (by norm_num)
    · rw [GA.mutation_length, hlen]
    · intro i h1 h32
      have hgd : (GA.mutation (fun i => FirstStage._random_solution (draws i))
          sol_list).getD i [] = FirstStage._random_solution (draws i) := by
        rw [GA.mutation_getD]
        rw [if_pos ⟨⟨h1, h32⟩, by rw [hlen]; exact h32⟩]
      refine ⟨hgd, ?_⟩
      intro hok
      rw [hgd]
      exact FirstStage.random_solution_in_range_first hok
  · refine ⟨?_, ?_, ?_⟩
    · rw [GA.mutation_getD]
      rw [if_neg]
      intro hc
      exact absurd hc.1.1 (by norm_num)
    · rw [GA.mutation_length, hlen]
    · intro i h1 h32
      have hgd : (GA.mutation (fun i => SecondStage._random_solution (draws i))
          sol_list).getD i [] = SecondStage._random_solution (draws i) := by
        rw [GA.mutation_getD]
        rw [if_pos ⟨⟨h1, h32⟩, by rw [hlen]; exact h32⟩]
      refine ⟨hgd, ?_⟩
      intro hok
      rw [hgd]
      exact SecondStage.random_solution_in_range_second hok

/-- witness for C8 on a concrete population and draw tape. -/
theorem c8_mutation_frame_witness :
    (List.replicate 32 (List.replicate 9 (0 : ℝ))).length = GA.POPULATION_NUMBER ∧
    (GA.mutation (fun i => FirstStage._random_solution
        ((fun _ => [1, 1, 5, 1, 1, 1, 1, 1, (1 : ℤ)]) i))
      (List.replicate 32 (List.replicate 9 (0 : ℝ)))).getD 0 [] =
      (List.replicate 32 (List.replicate 9 (0 : ℝ))).getD 0 [] := by
  have hlen : (List.replicate 32 (List.replicate 9 (0 : ℝ))).length =
      GA.POPULATION_NUMBER := by simp [GA.POPULATION_NUMBER]
  exact ⟨hlen,
    ((c8_mutation_frame (fun _ => [1, 1, 5, 1, 1, 1, 1, 1, (1 : ℤ)])
      (List.replicate 32 (List.replicate 9 (0 : ℝ))) hlen).1).1⟩

/-- C9: for every `xList` whose length is not 12 (operational stage) or not
9 (conservative stage), `main` emits a structured error object, terminates
with exit status 1, and never starts the search: its behaviour does not
depend on the random tapes the search would consume, and no result object
is produced. -/
theorem c9_input_validation (x y : List ℝ)
    (initd initd' : ℕ → List (List ℤ)) (tapes tapes' : ℕ → ℕ → GA.GenTape)
    (hx : x.length ≠ 12) (hy : y.length ≠ 9) :
    ((FirstStage.main x initd tapes).exitCode = 1 ∧
      (FirstStage.main x initd tapes).result = none ∧
      (FirstStage.main x initd tapes).error =
        some ("Expected 12 input values, got " ++ toString x.length) ∧
      FirstStage.main x initd tapes = FirstStage.main x initd' tapes') ∧
    ((SecondStage.main y initd tapes).exitCode = 1 ∧
      (SecondStage.main y initd tapes).result = none ∧
      (SecondStage.main y initd tapes).error =
        some ("Expected 9 input values, got " ++ toString y.length) ∧
      SecondStage.main y initd tapes = SecondStage.main y initd' tapes') := by
  unfold FirstStage.main SecondStage.main
  rw [if_pos hx, if_pos hy, if_pos hx, if_pos hy]
  exact ⟨⟨rfl, rfl, rfl, rfl⟩, ⟨rfl, rfl, rfl, rfl⟩⟩

/-- witness for C9 at length-11 and length-8 inputs. -/
theorem c9_input_validation_witness :
    ((List.replicate 11 (1 : ℝ)).length ≠ 12 ∧
      (List.replicate 8 (1 : ℝ)).length ≠ 9) ∧
    (FirstStage.main (List.replicate 11 (1 : ℝ)) (fun _ => [])
      (fun _ _ => ⟨fun _ => [], fun _ _ => [], fun _ => []⟩)).exitCode = 1 := by
  have hx : (List.replicate 11 (1 : ℝ)).length ≠ 12 := by simp
  have hy : (List.replicate 8 (1 : ℝ)).length ≠ 9 := by simp
  exact ⟨⟨hx, hy⟩,
    ((c9_input_validation (List.replicate 11 (1 : ℝ)) (List.replicate 8 (1 : ℝ))
      (fun _ => []) (fun _ => [])
      (fun _ _ => ⟨fun _ => [], fun _ _ => [], fun _ => []⟩)
      (fun _ _ => ⟨fun _ => [], fun _ _ => [], fun _ => []⟩) hx hy).1).1⟩

/-- C10: every run of the loop returns exactly one treatment with exactly
one criterion vector (an `Outcome`), so a completed 20-run invocation on a
valid input returns exactly five treatments, and its `complications` field
is the criterion vector of the first run — the empty-list branch of
`complication_list[0] if complication_list else []` is unreachable. -/
theorem c10_aggregation (x y : List ℝ) (initd : ℕ → List (List ℤ))
    (tapes : ℕ → ℕ → GA.GenTape) (_hx : x.length = 12) (_hy : y.length = 9) :
    ((FirstStage.calculate_treatment x initd tapes).treatments.length = 5 ∧
      (FirstStage.calculate_treatment x initd tapes).complications =
        (GA.run_loop (FirstStage.calculate_criterions x)
          FirstStage._random_solution GA.saati_method
          (FirstStage.calculate_perfect_value x GA.saati_method) (tapes 0)
          GA.MAX_GENERATIONS 0
          (FirstStage.generate_first_population (initd 0)) [] ([], [])).criterion) ∧
    ((SecondStage.calculate_treatment y initd tapes).treatments.length = 5 ∧
      (SecondStage.calculate_treatment y initd tapes).complications =
        (GA.run_loop (SecondStage.calculate_criterions y)
          SecondStage._random_solution GA.saati_method
          (SecondStage.calculate_perfect_value y GA.saati_method) (tapes 0)
          GA.MAX_GENERATIONS 0
          (SecondStage.generate_first_population (initd 0)) [] ([], [])).criterion) := by
  constructor
  · constructor
    · simp [FirstStage.calculate_treatment, GA.GA_RUNS]
    · simp only [FirstStage.calculate_treatment]
      rw [show List.range GA.GA_RUNS = 0 :: (List.range 19).map Nat.succ by
        rw [GA.GA_RUNS, List.range_succ_eq_map]]
      simp only [List.map_cons]
  · constructor
    · simp [SecondStage.calculate_treatment, GA.GA_RUNS]
    · simp only [SecondStage.calculate_treatment]
      rw [show List.range GA.GA_RUNS = 0 :: (List.range 19).map Nat.succ by
        rw [GA.GA_RUNS, List.range_succ_eq_map]]
      simp only [List.map_cons]

/-- witness for C10 at concrete valid inputs and an arbitrary tape. -/
theorem c10_aggregation_witness :
    ((List.replicate 12 (1 : ℝ)).length = 12 ∧
      (List.replicate 9 (1 : ℝ)).length = 9) ∧
    (FirstStage.calculate_treatment (List.replicate 12 (1 : ℝ)) (fun _ => [])
      (fun _ _ => ⟨fun _ => [], fun _ _ => [], fun _ => []⟩)).treatments.length = 5 := by
  have hx : (List.replicate 12 (1 : ℝ)).length = 12 := by simp
  have hy : (List.replicate 9 (1 : ℝ)).length = 9 := by simp
  exact ⟨⟨hx, hy⟩,
    ((c10_aggregation (List.replicate 12 (1 : ℝ)) (List.replicate 9 (1 : ℝ))
      (fun _ => []) (fun _ _ => ⟨fun _ => [], fun _ _ => [], fun _ => []⟩)
      hx hy).1).1⟩

/-- C5: every population reachable in a run — built by
`generate_first_population` and transformed by any sequence of `crossover`
and `mutation` operations whose random draws respect the library
contracts — contains exactly 32 treatment vectors, and every coordinate of
every vector lies within its declared per-stage per-coordinate range
(including the `/100` scaling). -/
theorem c5_population_invariant :
    (∀ pop, FirstStage.Reachable pop →
      pop.length = GA.POPULATION_NUMBER ∧ ∀ u ∈ pop, FirstStage.solInRange u) ∧
    (∀ pop, SecondStage.Reachable pop →
      pop.length = GA.POPULATION_NUMBER ∧ ∀ u ∈ pop, SecondStage.solInRange u) := by
  constructor
  · intro pop h
    induction h with
    | init draws hd hok =>
      constructor
      · simp [FirstStage.generate_first_population]
      · intro u hu
        simp only [FirstStage.generate_first_population, List.mem_map,
          List.mem_range] at hu
        obtain ⟨i, hi, rfl⟩ := hu
        apply FirstStage.random_solution_in_range_first
        apply hok
        rw [List.getD_eq_getElem _ _ (by rw [hd]; exact hi)]
        exact List.getElem_mem _
    | cross pop f m hp hf hm ih =>
      exact GA.crossover_preserves
        (fun l v => (FirstStage.bounds.getD l (0, 0)).1 ≤ v ∧
          v ≤ (FirstStage.bounds.getD l (0, 0)).2)
        pop f m ih.1 ih.2 hf hm
    | mutate pop draws hp hok ih =>
      exact GA.mutation_preserves
        (fun l v => (FirstStage.bounds.getD l (0, 0)).1 ≤ v ∧
          v ≤ (FirstStage.bounds.getD l (0, 0)).2)
        (fun i => FirstStage._random_solution (draws i)) pop ih.1 ih.2
        (fun i _ _ => FirstStage.random_solution_in_range_first (hok i))
  · intro pop h
    induction h with
    | init draws hd hok =>
      constructor
      · simp [SecondStage.generate_first_population]
      · intro u hu
        simp only [SecondStage.generate_first_population, List.mem_map,
          List.mem_range] at hu
        obtain ⟨i, hi, rfl⟩ := hu
        apply SecondStage.random_solution_in_range_second
        apply hok
        rw [List.getD_eq_getElem _ _ (by rw [hd]; exact hi)]
        exact List.getElem_mem _
    | cross pop f m hp hf hm ih =>
      exact GA.crossover_preserves
        (fun l v => (SecondStage.bounds.getD l (0, 0)).1 ≤ v ∧
          v ≤ (SecondStage.bounds.getD l (0, 0)).2)
        pop f m ih.1 ih.2 hf hm
    | mutate pop draws hp hok ih =>
      exact GA.mutation_preserves
        (fun l v => (SecondStage.bounds.getD l (0, 0)).1 ≤ v ∧
          v ≤ (SecondStage.bounds.getD l (0, 0)).2)
        (fun i => SecondStage._random_solution (draws i)) pop ih.1 ih.2
        (fun i _ _ => SecondStage.random_solution_in_range_second (hok i))

/-- witness for C5 on concrete freshly initialized populations. -/
theorem c5_population_invariant_witness :
    ((∀ r ∈ List.replicate 32 ([1, 1, 5, 1, 1, 1, 1, 1, 1] : List ℤ),
        FirstStage.draws_ok r) ∧
      (∀ r ∈ List.replicate 32 ([1, 1, 0, 1, 1, 1, 1, 1, 1] : List ℤ),
        SecondStage.draws_ok r)) ∧
    (FirstStage.generate_first_population
      (List.replicate 32 [1, 1, 5, 1, 1, 1, 1, 1, 1])).length =
        GA.POPULATION_NUMBER ∧
    (SecondStage.generate_first_population
      (List.replicate 32 [1, 1, 0, 1, 1, 1, 1, 1, 1])).length =
        GA.POPULATION_NUMBER := by
  have hok1 : ∀ r ∈ List.replicate 32 ([1, 1, 5, 1, 1, 1, 1, 1, 1] : List ℤ),
      FirstStage.draws_ok r := by
    intro r hr
    rw [List.eq_of_mem_replicate hr]
    refine ⟨rfl, ?_, ?_, ?_, ?_, ?_, ?_, ?_, ?_, ?_⟩ <;> exact ⟨by decide, by decide⟩
  have hok2 : ∀ r ∈ List.replicate 32 ([1, 1, 0, 1, 1, 1, 1, 1, 1] : List ℤ),
      SecondStage.draws_ok r := by
    intro r hr
    rw [List.eq_of_mem_replicate hr]
    refine ⟨rfl, ?_, ?_, ?_, ?_, ?_, ?_, ?_, ?_, ?_⟩ <;> exact ⟨by decide, by decide⟩
  refine ⟨⟨hok1, hok2⟩, ?_, ?_⟩
  · exact (c5_population_invariant.1 _
      (FirstStage.Reachable.init _ (by simp [GA.POPULATION_NUMBER]) hok1)).1
  · exact (c5_population_invariant.2 _
      (SecondStage.Reachable.init _ (by simp [GA.POPULATION_NUMBER]) hok2)).1

end
